import Mathlib

/-!
# jsqsh native layer: process lifecycle, pipe I/O and logging

A shallow embedding of the C sources of the jsqsh JNI layer
(`jsqsh_unix.c`, `jsqsh_win32.c`, `jsqsh_util.c`) together with theorems
about them.  Operating-system and JVM answers are explicit inputs of each
model; everything the C code does that is visible from outside (bytes
written to standard error, JNI calls, exceptions thrown into the JVM) is
recorded in a trace of events.
-/

namespace Jsqsh

/-! ## Effects -/

/-- Externally visible actions of the native code. -/
inductive Event where
  /-- Text written to the standard error stream. -/
  | stderr (text : String)
  /-- A JNI call made through the `JNIEnv` / `JavaVM` tables, by name. -/
  | jni (call : String)
  /-- The call `CallStaticVoidMethod(env, log_class, log_method, jstr)`. -/
  | sink (method : String) (text : String)
  /-- The call `(*env)->Throw` of an exception of class `clazz`. -/
  | raise (clazz : String) (message : String)
  /-- The call `(*env)->ExceptionDescribe`. -/
  | describe
  deriving DecidableEq, Repr

/-- How a C function ends: it returns a value, the process is terminated by
`abort()`, the budget of the model (nested calls, loop iterations) is used
up before the function has ended, or the program has left defined behaviour
(it has written outside an allocated object or through a null pointer). -/
inductive Outcome (α : Type) where
  | ret (a : α)
  | abort
  | exhausted
  | undefined
  deriving DecidableEq, Repr

/-- A run of a C function: the events it produced and how it ended. -/
structure Run (α : Type) where
  trace : List Event
  out : Outcome α
  deriving DecidableEq, Repr

/-- Returning a value without any effect. -/
def Run.pure {α : Type} (a : α) : Run α := ⟨[], .ret a⟩

/-- Sequencing: the continuation runs only when the first part returned. -/
def Run.bind {α β : Type} (r : Run α) (f : α → Run β) : Run β :=
  match r.out with
  | .ret a => ⟨r.trace ++ (f a).trace, (f a).out⟩
  | .abort => ⟨r.trace, .abort⟩
  | .exhausted => ⟨r.trace, .exhausted⟩
  | .undefined => ⟨r.trace, .undefined⟩

instance : Monad Run where
  pure := Run.pure
  bind := Run.bind

/-- Produce one event. -/
def emit (e : Event) : Run Unit := ⟨[e], .ret ()⟩

/-- The C library call `abort()`. -/
def abort {α : Type} : Run α := ⟨[], .abort⟩

/-- The budget of the model is used up. -/
def exhausted {α : Type} : Run α := ⟨[], .exhausted⟩

/-- The program leaves defined behaviour. -/
def undefined {α : Type} : Run α := ⟨[], .undefined⟩

/-! ## The host (JVM) and the C library -/

/-- Answers of the JVM and of the C library to the calls the native code makes. -/
structure Host where
  /-- `g_jvm != NULL`: the library has been initialised. -/
  jvm : Bool
  /-- `GetEnv` returned `JNI_OK`. -/
  getEnvOk : Bool
  /-- `GetEnv` stored a non-null `JNIEnv`. -/
  getEnvEnv : Bool
  /-- `ExceptionOccurred` returns a non-null throwable. -/
  exceptionOccurred : Bool
  /-- `FindClass` finds the named class. -/
  findClass : String → Bool
  /-- `GetStaticMethodID` finds the named static method of `ShellManager`. -/
  getStaticMethodID : String → Bool
  /-- `GetMethodID` finds the constructor `<init>` of the named class. -/
  getMethodID : String → Bool
  /-- `NewStringUTF` succeeds on the given text. -/
  newStringUTF : String → Bool
  /-- `NewObject` succeeds for the named class. -/
  newObject : String → Bool
  /-- The `malloc` call succeeds. -/
  malloc : Bool
  /-- The call `malloc(2048)` of `_jsqsh_log` succeeds. -/
  logMalloc : Bool
  /-- The text of `strerror(errnum)`. -/
  strerror : Int → String
  /-- The text `strftime` produces for `"%Y.%m.%d %H:%M:%S"` at the time of the call. -/
  now : String

/-! ## Logging and assertions (`jsqsh_util.c`) -/

def LOG_DEBUG : Int := 0
def LOG_INFO : Int := 1
def LOG_WARN : Int := 2
def LOG_ERROR : Int := 3
def LOG_FATAL : Int := 4

/-- The expansion of `"%s: %d: Assertion failed: %s\n"`. -/
def assertText (expr file : String) (line : Nat) : String :=
  file ++ ": " ++ toString line ++ ": Assertion failed: " ++ expr ++ "\n"

/-- The expansion of `"%s: %d: Assertion failed: %s (stack trace sent to stderr)\n"`. -/
def assertJniText (expr file : String) (line : Nat) : String :=
  file ++ ": " ++ toString line ++ ": Assertion failed: " ++ expr
    ++ " (stack trace sent to stderr)\n"

/-- Body of `jsqsh_assert_fail`, given the behaviour of `jsqsh_fatal`. -/
def assert_fail_with {α : Type} (fatal : String → Run Unit) (expr file : String)
    (line : Nat) : Run α := do
  fatal (assertText expr file line)
  abort

/-- Body of `jsqsh_assert_jni_fail`, given the behaviour of `jsqsh_fatal`;
`envNonNull` says whether the `env` argument is a non-null pointer. -/
def assert_jni_fail_with {α : Type} (h : Host) (fatal : String → Run Unit)
    (envNonNull : Bool) (expr file : String) (line : Nat) : Run α :=
  if !envNonNull then
    assert_fail_with fatal expr file line
  else do
    emit (.jni "ExceptionOccurred")
    if !h.exceptionOccurred then
      assert_fail_with fatal expr file line
    else do
      fatal (assertJniText expr file line)
      emit .describe
      abort

/-- The macro `ASSERT(e)`. -/
def ASSERT_with (fatal : String → Run Unit) (e : Bool) (expr file : String)
    (line : Nat) : Run Unit :=
  if e then pure () else assert_fail_with fatal expr file line

/-- The macro `ASSERT_JNI(env, e)`. -/
def ASSERT_JNI_with (h : Host) (fatal : String → Run Unit) (envNonNull : Bool)
    (e : Bool) (expr file : String) (line : Nat) : Run Unit :=
  if e then pure () else assert_jni_fail_with h fatal envNonNull expr file line

/-- Body of `jsqsh_getenv`, given the behaviour of `jsqsh_fatal`; the result
says whether the returned `env` is non-null. -/
def getenv_with (h : Host) (fatal : String → Run Unit) : Run Bool := do
  emit (.jni "GetEnv")
  ASSERT_JNI_with h fatal h.getEnvEnv (h.getEnvOk && h.getEnvEnv)
    "retval == JNI_OK && env != NULL" "jsqsh_util.c" 164
  pure h.getEnvEnv

/-- The `switch` choosing the name of the Java logging method. -/
def logMethod (severity : Int) : String :=
  if severity = LOG_DEBUG then "debug"
  else if severity = LOG_INFO then "info"
  else if severity = LOG_ERROR then "error"
  else if severity = LOG_WARN then "warn"
  else if severity = LOG_FATAL then "fatal"
  else "debug"

/-- The `switch` choosing the severity tag of the standard-error line. -/
def logSev (severity : Int) : String :=
  if severity = LOG_DEBUG then "DEBUG"
  else if severity = LOG_INFO then "INFO "
  else if severity = LOG_ERROR then "ERROR"
  else if severity = LOG_WARN then "WARN "
  else if severity = LOG_FATAL then "FATAL"
  else "ERROR"

/-- The three lookups of `_jsqsh_log` guarded by `ok == 1`; the result is the
final value of `ok`. -/
def logResolve (h : Host) (method text : String) : Run Bool := do
  emit (.jni "FindClass")
  if !h.findClass "org/sqsh/jni/ShellManager" then pure false else do
  emit (.jni "GetStaticMethodID")
  if !h.getStaticMethodID method then pure false else do
  emit (.jni "NewStringUTF")
  if !h.newStringUTF text then pure false else pure true

/-- The size in bytes of the buffer `_jsqsh_log` allocates for the message. -/
def LOG_BUFFER_SIZE : Nat := 2048

/-- The function `_jsqsh_log`.  `text` is the expansion of the format
`message` with the arguments `ap`; the first argument bounds the nesting of
`_jsqsh_log` inside itself (through `jsqsh_getenv` and the assertion
helpers).  After initialisation the text is written by `vsprintf` into an
unchecked `malloc(2048)`: when the allocation fails, or when the text and its
terminating NUL need more than 2048 bytes, the write leaves the buffer and
the behaviour is undefined. -/
def _jsqsh_log (h : Host) : Nat → Int → String → Run Unit
  | 0, _, _ => exhausted
  | fuel + 1, severity, text =>
    if !h.jvm then
      emit (.stderr text)
    else do
      let _env ← getenv_with h (_jsqsh_log h fuel LOG_FATAL)
      let method := logMethod severity
      if !h.logMalloc || LOG_BUFFER_SIZE ≤ text.utf8ByteSize then undefined else do
      let ok ← logResolve h method text
      if ok then do
        emit (.sink method text)
        emit (.jni "DeleteLocalRef")
      if !ok || severity = LOG_FATAL then
        emit (.stderr (logSev severity ++ " " ++ (h.now ++ ":000") ++ " " ++ text ++ "\n"))

def jsqsh_debug (h : Host) (fuel : Nat) (text : String) : Run Unit :=
  _jsqsh_log h fuel LOG_DEBUG text

def jsqsh_info (h : Host) (fuel : Nat) (text : String) : Run Unit :=
  _jsqsh_log h fuel LOG_INFO text

def jsqsh_warn (h : Host) (fuel : Nat) (text : String) : Run Unit :=
  _jsqsh_log h fuel LOG_WARN text

def jsqsh_error (h : Host) (fuel : Nat) (text : String) : Run Unit :=
  _jsqsh_log h fuel LOG_ERROR text

def jsqsh_fatal (h : Host) (fuel : Nat) (text : String) : Run Unit :=
  _jsqsh_log h fuel LOG_FATAL text

/-- The function `jsqsh_assert_fail`. -/
def jsqsh_assert_fail {α : Type} (h : Host) (fuel : Nat) (expr file : String)
    (line : Nat) : Run α :=
  assert_fail_with (jsqsh_fatal h fuel) expr file line

/-- The function `jsqsh_assert_jni_fail`. -/
def jsqsh_assert_jni_fail {α : Type} (h : Host) (fuel : Nat) (envNonNull : Bool)
    (expr file : String) (line : Nat) : Run α :=
  assert_jni_fail_with h (jsqsh_fatal h fuel) envNonNull expr file line

/-- The function `jsqsh_getenv`. -/
def jsqsh_getenv (h : Host) (fuel : Nat) : Run Bool :=
  getenv_with h (jsqsh_fatal h fuel)

/-- The macro `ASSERT(e)` at a call site. -/
def ASSERT (h : Host) (fuel : Nat) (e : Bool) (expr file : String) (line : Nat) :
    Run Unit :=
  ASSERT_with (jsqsh_fatal h fuel) e expr file line

/-- The macro `ASSERT_JNI(env, e)` at a call site with a non-null `env`. -/
def ASSERT_JNI (h : Host) (fuel : Nat) (e : Bool) (expr file : String) (line : Nat) :
    Run Unit :=
  ASSERT_JNI_with h (jsqsh_fatal h fuel) true e expr file line

/-- The class thrown when `jsqsh_throw` is given `NULL`. -/
def defaultExceptionClass : String := "org/sqsh/jni/NativeShellException"

/-- The function `jsqsh_throw(env, errnum, clazz)`; `none` stands for a
`NULL` class name. -/
def jsqsh_throw (h : Host) (fuel : Nat) (errnum : Int) (clazz : Option String) :
    Run Unit := do
  ASSERT h fuel h.malloc "buffer != NULL" "jsqsh_util.c" 70
  let buffer := (h.strerror errnum).take 511
  emit (.jni "NewStringUTF")
  ASSERT_JNI h fuel (h.newStringUTF buffer) "message != NULL" "jsqsh_util.c" 87
  let clazz := clazz.getD defaultExceptionClass
  emit (.jni "FindClass")
  ASSERT_JNI h fuel (h.findClass clazz) "exception_class != NULL" "jsqsh_util.c" 100
  emit (.jni "GetMethodID")
  ASSERT_JNI h fuel (h.getMethodID clazz) "constructor != NULL" "jsqsh_util.c" 104
  emit (.jni "NewObject")
  ASSERT_JNI h fuel (h.newObject clazz) "exception != NULL" "jsqsh_util.c" 107
  emit (.raise clazz buffer)
  emit (.jni "DeleteLocalRef")

/-! ## Machine integers -/

/-- Conversion of an integer to a 32-bit two's-complement `int`
(the casts `(int) jfd` and `(pid_t) pid` of a `jlong`). -/
def wrap32 (x : Int) : Int := (x + 2 ^ 31) % 2 ^ 32 - 2 ^ 31

/-- The bit pattern of a 32-bit `int` read as an unsigned number
(the conversion of `int` to `DWORD` / `unsigned`). -/
def intBits (s : Int) : Nat := (s % 2 ^ 32).toNat

/-! ## Wait statuses (`<sys/wait.h>`) -/

/-- The macro `WIFEXITED` of `<sys/wait.h>`: the low seven bits (the
terminating signal) are zero. -/
def WIFEXITED (s : Int) : Bool := (intBits s &&& 0x7f) == 0

/-- The macro `WEXITSTATUS` of `<sys/wait.h>`: bits 8 to 15. -/
def WEXITSTATUS (s : Int) : Int := (((intBits s &&& 0xff00) >>> 8 : Nat) : Int)

/-- The status word the kernel reports for a child that called `exit(c)`. -/
def exitedStatus (c : Int) : Int := (((intBits c &&& 0xff) <<< 8 : Nat) : Int)

/-- The status word the kernel reports for a child killed by signal `sig`
(`1 ≤ sig ≤ 126`), with or without a core dump. -/
def signaledStatus (sig : Nat) (core : Bool) : Int :=
  ((sig ||| (if core then 0x80 else 0) : Nat) : Int)

/-- What `waitpid(pid, &status, 0)` answers: its return value, the status
word it stored and the value of `errno` after the call. -/
structure WaitpidReply where
  rc : Int
  status : Int
  errno : Int
  deriving DecidableEq, Repr

/-- The answer of a successful `waitpid` on the child `pid`: the return value
is the process id of the child whose state changed. -/
def reaped (pid status : Int) : WaitpidReply := ⟨pid, status, 0⟩

/-! ## Pipe writes -/

/-- What `write(fd, buf, count)` answers: its return value and `errno`. -/
structure WriteReply where
  rc : Int
  errno : Int
  deriving DecidableEq, Repr

/-- What `WriteFile` answers: success flag, `nwritten` and `GetLastError()`. -/
structure WriteFileReply where
  ok : Bool
  nwritten : Nat
  lastError : Int
  deriving DecidableEq, Repr

/-- Local variables of `jsqsh_write` together with what the operating system
has seen so far.  `buf` is the offset of the pointer `buf` from the first
byte of the caller's buffer. -/
structure WriteState where
  buf : Int
  nbytes : Int
  calls : Nat
  delivered : List Nat
  deriving DecidableEq, Repr

/-- The bytes at addresses `buf + 0 .. buf + n - 1`, where `mem i` is the byte
stored `i` bytes after the start of the caller's buffer. -/
def bytesAt (mem : Int → Nat) (buf : Int) (n : Nat) : List Nat :=
  (List.range n).map (fun i => mem (buf + i))

/-- The name of the Java I/O exception class. -/
def ioException : String := "java/io/IOException"

namespace Unix

/-- The function `jsqsh_wait` of `jsqsh_unix.c`. -/
def jsqsh_wait (h : Host) (fuel : Nat) (waitpid : Int → WaitpidReply) (pid : Int) :
    Run Int :=
  let r := waitpid (wrap32 pid)
  let rc := r.rc
  if rc < 0 then do
    jsqsh_throw h fuel r.errno none
    pure (-1)
  else if WIFEXITED rc then
    pure (WEXITSTATUS rc)
  else
    pure 1

/-- The `while (nbytes < len)` loop of `jsqsh_write` in `jsqsh_unix.c`.  The
first numeric argument bounds the number of iterations; `write k count` is the
answer of the `k`-th `write` call when asked for `count` bytes.  The `int`
variables `rc` and `nbytes` hold 32-bit two's-complement values: the result of
`write` is converted to `int` and the addition `nbytes += rc` wraps modulo
`2 ^ 32`, as the compiled code does (the C standard leaves the overflow
undefined).  `delivered` records the bytes the operating system accepted. -/
def write_loop (h : Host) (fuel : Nat) (mem : Int → Nat) (write : Nat → Int → WriteReply)
    (len : Int) : Nat → WriteState → Run WriteState
  | 0, s => if s.nbytes < len then exhausted else pure s
  | n + 1, s =>
    if s.nbytes < len then
      let r := write s.calls len
      let rc := wrap32 r.rc
      if rc < 0 then do
        jsqsh_throw h fuel r.errno (some ioException)
        pure { s with calls := s.calls + 1 }
      else
        write_loop h fuel mem write len n
          { buf := s.buf + rc
            nbytes := wrap32 (s.nbytes + rc)
            calls := s.calls + 1
            delivered := s.delivered ++ bytesAt mem s.buf r.rc.toNat }
    else
      pure s

/-- The function `jsqsh_write` of `jsqsh_unix.c`. -/
def jsqsh_write (h : Host) (fuel : Nat) (mem : Int → Nat) (write : Nat → Int → WriteReply)
    (len : Int) (iterations : Nat) : Run WriteState :=
  write_loop h fuel mem write len iterations ⟨0, 0, 0, []⟩

end Unix

namespace Win32

/-- The `while (nbytes < len)` loop of `jsqsh_write` in `jsqsh_win32.c`.
`nbytes` is a `DWORD`: the comparison converts `len` to unsigned and the
addition is modulo `2 ^ 32`; `writeFile k count` is the answer of the `k`-th
`WriteFile` call when asked for `count` bytes. -/
def write_loop (h : Host) (fuel : Nat) (mem : Int → Nat)
    (writeFile : Nat → Nat → WriteFileReply) (len : Int) :
    Nat → WriteState → Run WriteState
  | 0, s => if s.nbytes < intBits len then exhausted else pure s
  | n + 1, s =>
    if s.nbytes < intBits len then
      let r := writeFile s.calls (intBits len)
      if !r.ok then do
        jsqsh_throw h fuel r.lastError (some ioException)
        pure { s with calls := s.calls + 1 }
      else
        write_loop h fuel mem writeFile len n
          { buf := s.buf + r.nwritten
            nbytes := ((s.nbytes.toNat + r.nwritten) % 2 ^ 32 : Nat)
            calls := s.calls + 1
            delivered := s.delivered ++ bytesAt mem s.buf r.nwritten }
    else
      pure s

/-- The function `jsqsh_write` of `jsqsh_win32.c`. -/
def jsqsh_write (h : Host) (fuel : Nat) (mem : Int → Nat)
    (writeFile : Nat → Nat → WriteFileReply) (len : Int) (iterations : Nat) :
    Run WriteState :=
  write_loop h fuel mem writeFile len iterations ⟨0, 0, 0, []⟩

end Win32

/-! ## Descriptor and handle tables -/

/-- What an open descriptor or handle refers to.  `pipeRead` and `pipeWrite`
are the two ends of the pipe created by the call under study. -/
inductive Res where
  | pipeRead
  | pipeWrite
  | process
  | thread
  | other (n : Nat)
  deriving DecidableEq, Repr

/-- The `errno` value `EBADF`. -/
def EBADF : Int := 9

/-- The Windows error code `ERROR_INVALID_HANDLE`. -/
def ERROR_INVALID_HANDLE : Int := 6

/-- The descriptor table of a POSIX process and its `errno`. -/
structure Sys where
  fds : Int → Option Res
  errno : Int

/-- The system call `close`: it succeeds only on an open descriptor, which it
marks closed; otherwise it fails with `EBADF`. -/
def sys_close (s : Sys) (fd : Int) : Sys × Int :=
  if (s.fds fd).isSome then
    ({ s with fds := Function.update s.fds fd none }, 0)
  else
    ({ s with errno := EBADF }, -1)

/-- The system call `dup2`: `newfd` is made to refer to what `oldfd` refers to. -/
def sys_dup2 (s : Sys) (oldfd newfd : Int) : Sys × Int :=
  match s.fds oldfd with
  | none => ({ s with errno := EBADF }, -1)
  | some r => ({ s with fds := Function.update s.fds newfd (some r) }, newfd)

/-- What `pipe(pfd)` answers. -/
inductive PipeReply where
  | failed (errno : Int)
  | ok (rd wr : Int)
  deriving DecidableEq, Repr

/-- What `fork()` answers in the process under study. -/
inductive ForkReply where
  | failed (errno : Int)
  | child
  | parent (pid : Int)
  deriving DecidableEq, Repr

/-- How a spawn function ends in the process under study. -/
inductive SpawnEnd where
  /-- It returned `rc`; the output parameters hold a value when they were assigned. -/
  | returned (rc : Int) (ret_pid ret_fd : Option Int)
  /-- The child replaced its image with the command (`execv` succeeded). -/
  | execed (args : List (List Char))
  /-- The child called `exit(code)`. -/
  | exited (code : Int)
  deriving DecidableEq, Repr

/-- An open Windows handle: what it refers to and whether children inherit it. -/
structure WinHandle where
  res : Res
  inherit : Bool
  deriving DecidableEq, Repr

/-- The handle table of a Windows process and its last-error value. -/
structure WinSys where
  handles : Int → Option WinHandle
  lastError : Int

/-- The call `CloseHandle`. -/
def closeHandle (s : WinSys) (hd : Int) : WinSys × Bool :=
  if (s.handles hd).isSome then
    ({ s with handles := Function.update s.handles hd none }, true)
  else
    ({ s with lastError := ERROR_INVALID_HANDLE }, false)

/-- The call `SetHandleInformation(hd, HANDLE_FLAG_INHERIT, 0)`. -/
def clearInherit (s : WinSys) (hd : Int) : WinSys :=
  match s.handles hd with
  | none => { s with lastError := ERROR_INVALID_HANDLE }
  | some w => { s with handles := Function.update s.handles hd (some { w with inherit := false }) }

/-- What `CreatePipe` answers. -/
inductive CreatePipeReply where
  | failed (lastError : Int)
  | ok (rd wr : Int)
  deriving DecidableEq, Repr

/-- What `CreateProcess` answers. -/
inductive CreateProcessReply where
  | failed (lastError : Int)
  | ok (hProcess hThread : Int)
  deriving DecidableEq, Repr

namespace Unix

/-- The function `jsqsh_close` of `jsqsh_unix.c`. -/
def jsqsh_close (h : Host) (fuel : Nat) (s : Sys) (jfd : Int) : Run Sys :=
  let r := sys_close s (wrap32 jfd)
  let s := r.1
  let rc := r.2
  if rc < 0 then do
    jsqsh_throw h fuel s.errno (some ioException)
    pure s
  else
    pure s

/-- The child branch (`case 0`) of `jsqsh_popen` in `jsqsh_unix.c`, up to the
call of `execv`: the descriptor table with which the image is replaced. -/
def popen_child (s : Sys) (rd wr : Int) : Sys :=
  let s := (sys_close s wr).1
  let s := if rd ≠ 0 then (sys_dup2 s rd 0).1 else s
  (sys_close s rd).1

/-- The function `jsqsh_popen` of `jsqsh_unix.c`.  `execv` is `none` when the
image replacement succeeds and the `errno` of the failure otherwise. -/
def jsqsh_popen (h : Host) (fuel : Nat) (s : Sys) (pipe : PipeReply) (fork : ForkReply)
    (execv : Option Int) (args : List (List Char)) : Run (Sys × SpawnEnd) :=
  match pipe with
  | .failed e => do
    let s := { s with errno := e }
    jsqsh_throw h fuel s.errno none
    pure (s, .returned 1 none none)
  | .ok rd wr =>
    let s := { s with
      fds := Function.update (Function.update s.fds rd (some .pipeRead)) wr (some .pipeWrite) }
    match fork with
    | .failed e' => do
      let s := { s with errno := e' }
      let e := s.errno
      let s := (sys_close s rd).1
      let s := (sys_close s wr).1
      jsqsh_throw h fuel e none
      pure (s, .returned 1 none none)
    | .child =>
      let s := popen_child s rd wr
      match execv with
      | none => pure (s, .execed args)
      | some e => do
        emit (.stderr ("Failed to launch '" ++ String.mk (args.headD []) ++ "' (errno "
          ++ toString e ++ ")\n"))
        pure ({ s with errno := e }, .exited 1)
    | .parent pid =>
      let fd := wr
      let s := (sys_close s rd).1
      pure (s, .returned 0 (some pid) (some fd))

/-- The function `jsqsh_exec` of `jsqsh_unix.c`. -/
def jsqsh_exec (h : Host) (fuel : Nat) (s : Sys) (fork : ForkReply) (execv : Option Int)
    (args : List (List Char)) : Run (Sys × SpawnEnd) :=
  match fork with
  | .failed e => do
    let s := { s with errno := e }
    jsqsh_throw h fuel s.errno none
    pure (s, .returned 1 none none)
  | .child =>
    match execv with
    | none => pure (s, .execed args)
    | some e => do
      emit (.stderr ("Failed to launch '" ++ String.mk (args.headD []) ++ "' (errno "
        ++ toString e ++ ")\n"))
      pure ({ s with errno := e }, .exited 1)
  | .parent pid => pure (s, .returned 0 (some pid) none)

/-- The function `jsqsh_width` of `jsqsh_unix.c`.  `haveTIOCGWINSZ` says whether
the macro `TIOCGWINSZ` is defined at build time; `ioctl` is `none` when the
query returns -1 and the column count `ws_col` (an `unsigned short`) it stored
otherwise.  The `env` argument is not used: the function has no effect. -/
def jsqsh_width (haveTIOCGWINSZ : Bool) (ioctl : Option Nat) : Run Int :=
  if haveTIOCGWINSZ then
    match ioctl with
    | some ws_col => pure (ws_col : Int)
    | none => pure (-1)
  else
    pure (-1)

end Unix

namespace Win32

/-- The inner `for` loop of `jsqsh_commandline`: copy the characters of `arg`
to the end of `cl` while `len < 1023`. -/
def copyArg : List Char → List Char → List Char
  | cl, [] => cl
  | cl, c :: arg => if cl.length < 1023 then copyArg (cl ++ [c]) arg else cl

/-- The outer `for` loop of `jsqsh_commandline`, at index `i`, with the
arguments `argv[i], argv[i+1], ...` still to be visited. -/
def commandlineLoop : Nat → List Char → List (List Char) → List Char
  | _, cl, [] => cl
  | i, cl, arg :: rest =>
    if cl.length < 1023 then
      commandlineLoop (i + 1) (copyArg (if i > 0 then cl ++ [' '] else cl) arg) rest
    else
      cl

/-- The function `jsqsh_commandline` of `jsqsh_win32.c`: the characters
stored in `cl` before the terminating NUL. -/
def jsqsh_commandline (argv : List (List Char)) : List Char :=
  commandlineLoop 0 [] argv

/-- The function `jsqsh_close` of `jsqsh_win32.c`. -/
def jsqsh_close (h : Host) (fuel : Nat) (s : WinSys) (jfd : Int) : Run WinSys :=
  let r := closeHandle s jfd
  let s := r.1
  if !r.2 then do
    jsqsh_throw h fuel s.lastError (some ioException)
    pure s
  else
    pure s

/-- The function `jsqsh_popen` of `jsqsh_win32.c`; `createProcess` answers
for the command line it is given. -/
def jsqsh_popen (h : Host) (fuel : Nat) (s : WinSys) (createPipe : CreatePipeReply)
    (createProcess : List Char → CreateProcessReply) (args : List (List Char)) :
    Run (WinSys × SpawnEnd) :=
  let command_line := jsqsh_commandline args
  match createPipe with
  | .failed err => do
    let s := { s with lastError := err }
    jsqsh_throw h fuel s.lastError none
    pure (s, .returned 1 none none)
  | .ok stdin_read stdin_write =>
    let s := { s with
      handles := Function.update (Function.update s.handles stdin_read (some ⟨.pipeRead, true⟩))
        stdin_write (some ⟨.pipeWrite, true⟩) }
    let s := clearInherit s stdin_write
    match createProcess command_line with
    | .failed err => do
      let s := { s with lastError := err }
      jsqsh_throw h fuel s.lastError none
      let s := (closeHandle s stdin_read).1
      let s := (closeHandle s stdin_write).1
      pure (s, .returned 1 none none)
    | .ok hProcess hThread =>
      let s := { s with
        handles := Function.update (Function.update s.handles hProcess (some ⟨.process, false⟩))
          hThread (some ⟨.thread, false⟩) }
      let s := (closeHandle s hThread).1
      pure (s, .returned 0 (some hProcess) (some stdin_write))

/-- The function `jsqsh_exec` of `jsqsh_win32.c`.  `*ret_pid` is assigned on
both paths; after a failed `CreateProcess` it holds the zeroed `hProcess`. -/
def jsqsh_exec (h : Host) (fuel : Nat) (s : WinSys)
    (createProcess : List Char → CreateProcessReply) (args : List (List Char)) :
    Run (WinSys × SpawnEnd) :=
  let command_line := jsqsh_commandline args
  match createProcess command_line with
  | .failed err => do
    let s := { s with lastError := err }
    jsqsh_throw h fuel s.lastError none
    pure (s, .returned 1 (some 0) none)
  | .ok hProcess hThread =>
    let s := { s with
      handles := Function.update (Function.update s.handles hProcess (some ⟨.process, false⟩))
        hThread (some ⟨.thread, false⟩) }
    let s := (closeHandle s hThread).1
    pure (s, .returned 0 (some hProcess) none)

/-- The function `jsqsh_width` of `jsqsh_win32.c`.  `info` is `none` when
`GetConsoleScreenBufferInfo` fails and the stored `dwSize.X` (a `SHORT`)
otherwise.  The `env` argument is not used: the function has no effect. -/
def jsqsh_width (info : Option Int) : Run Int :=
  match info with
  | some x => pure x
  | none => pure (-1)

end Win32

/-! ## Vocabulary of the statements -/

/-- The exceptions thrown into the JVM during a run, in order: class and message. -/
def raised : List Event → List (String × String)
  | [] => []
  | .raise c m :: t => (c, m) :: raised t
  | _ :: t => raised t

/-- The texts written to standard error during a run, in order. -/
def stderrLines : List Event → List String
  | [] => []
  | .stderr x :: t => x :: stderrLines t
  | _ :: t => stderrLines t

/-- The message `jsqsh_throw` gives to the exception for `errnum`. -/
def throwMessage (h : Host) (errnum : Int) : String := (h.strerror errnum).take 511

/-- The allocation and the four JVM lookups of `jsqsh_throw(env, errnum, clazz)`
all succeed. -/
def Host.throwSucceeds (h : Host) (errnum : Int) (clazz : Option String) : Bool :=
  h.malloc && h.newStringUTF (throwMessage h errnum)
    && h.findClass (clazz.getD defaultExceptionClass)
    && h.getMethodID (clazz.getD defaultExceptionClass)
    && h.newObject (clazz.getD defaultExceptionClass)

/-- A host that is initialised and answers every call successfully. -/
def nominalHost : Host :=
  { jvm := true, getEnvOk := true, getEnvEnv := true, exceptionOccurred := false,
    findClass := fun _ => true, getStaticMethodID := fun _ => true,
    getMethodID := fun _ => true, newStringUTF := fun _ => true,
    newObject := fun _ => true, malloc := true, logMalloc := true,
    strerror := fun e => if e = 9 then "Bad file descriptor" else "Unknown error",
    now := "2007.05.01 12:00:00" }

/-- A host in which `JNI_OnLoad` has not run yet (`g_jvm` is `NULL`). -/
def uninitialisedHost : Host := { nominalHost with jvm := false }

/-- Memory around a two-byte buffer holding `65, 66`; the byte `67` lies just
behind the buffer. -/
def sampleMem : Int → Nat := fun i => 65 + i.toNat

/-- A `write` that accepts one byte on the first call and everything it is
asked for afterwards. -/
def shortWrite : Nat → Int → WriteReply :=
  fun k count => if k = 0 then ⟨1, 0⟩ else ⟨count, 0⟩

/-- A `WriteFile` that accepts one byte on the first call and everything it
is asked for afterwards. -/
def shortWriteFile : Nat → Nat → WriteFileReply :=
  fun k count => if k = 0 then ⟨true, 1, 0⟩ else ⟨true, count, 0⟩

/-- A descriptor table in which only standard output and standard error are
open (standard input has been closed). -/
def noStdinSys : Sys :=
  ⟨fun fd => if fd = 1 ∨ fd = 2 then some (.other 0) else none, 0⟩

/-- A handle table with no open handle. -/
def emptyWinSys : WinSys := ⟨fun _ => none, 0⟩

/-- A `write` that accepts exactly one byte on every call. -/
def oneByteWrite : Nat → Int → WriteReply := fun _ _ => ⟨1, 0⟩

/-- The characters the outer loop of `jsqsh_commandline` would still append
from index `i` on if the buffer were unbounded. -/
def pendingText : Nat → List (List Char) → List Char
  | _, [] => []
  | i, arg :: rest => (if i > 0 then [' '] else []) ++ arg ++ pendingText (i + 1) rest

/-- An argument vector whose second argument contains a space and whose third
argument contains double quotes. -/
def sampleArgv : List (List Char) :=
  [['d', 'i', 'r'], ['a', ' ', 'b'], [Char.ofNat 34, 'q', Char.ofNat 34]]

/-- An argument vector with a single argument of 1024 characters. -/
def longArgv : List (List Char) := [List.replicate 1024 'a']

/-! ## The JNI boundary (`jsqsh_jni.c`) -/

/-- Answers of the JVM and of the allocator to the array and string calls of
the boundary functions; the index is the position in the command array. -/
structure ArgHost where
  /-- `GetObjectArrayElement` returns a non-null string. -/
  getObjectArrayElement : Nat → Bool
  /-- `GetStringUTFChars` returns a non-null buffer. -/
  getStringUTFChars : Nat → Bool
  /-- The `malloc` of the `args` vector succeeds. -/
  malloc : Bool

/-- How a boundary spawn function ends in the process under study. -/
inductive BoundaryEnd where
  /-- It returned a `NativeShell` object built from the process and pipe handles. -/
  | shell (pid fd : Option Int)
  /-- It returned `NULL`. -/
  | null
  /-- The process is the forked child, which left the function through the back end. -/
  | child (e : SpawnEnd)
  deriving DecidableEq, Repr

/-- The first `for` loop of the boundary spawn functions, from index `i` on:
every element of the command array is fetched and converted to a C string.
`l1` and `l2` are the source lines of the two assertions. -/
def convertArgs (h : Host) (fuel : Nat) (ah : ArgHost) (l1 l2 : Nat) :
    Nat → List (List Char) → Run Unit
  | _, [] => pure ()
  | i, _ :: rest => do
    emit (.jni "GetObjectArrayElement")
    ASSERT_JNI h fuel (ah.getObjectArrayElement i) "jstr != NULL" "jsqsh_jni.c" l1
    emit (.jni "GetStringUTFChars")
    ASSERT_JNI h fuel (ah.getStringUTFChars i) "args[i] != NULL" "jsqsh_jni.c" l2
    emit (.jni "DeleteLocalRef")
    convertArgs h fuel ah l1 l2 (i + 1) rest

/-- The second `for` loop of the boundary spawn functions, from index `i` on:
the C strings are released. -/
def releaseArgs (h : Host) (fuel : Nat) (ah : ArgHost) (l1 : Nat) :
    Nat → List (List Char) → Run Unit
  | _, [] => pure ()
  | i, _ :: rest => do
    emit (.jni "GetObjectArrayElement")
    ASSERT_JNI h fuel (ah.getObjectArrayElement i) "jstr != NULL" "jsqsh_jni.c" l1
    emit (.jni "ReleaseStringUTFChars")
    emit (.jni "DeleteLocalRef")
    releaseArgs h fuel ah l1 (i + 1) rest

/-- The name of the Java class of the object the spawn functions return. -/
def nativeShellClass : String := "org/sqsh/jni/NativeShell"

/-- The creation of the `NativeShell` object at the end of the boundary spawn
functions; `l1`, `l2`, `l3` are the source lines of the three assertions. -/
def newShell (h : Host) (fuel : Nat) (l1 l2 l3 : Nat) (pid fd : Option Int) :
    Run BoundaryEnd := do
  emit (.jni "FindClass")
  ASSERT_JNI h fuel (h.findClass nativeShellClass) "shell_class != NULL" "jsqsh_jni.c" l1
  emit (.jni "GetMethodID")
  ASSERT_JNI h fuel (h.getMethodID nativeShellClass) "constructor != NULL" "jsqsh_jni.c" l2
  emit (.jni "NewObject")
  ASSERT_JNI h fuel (h.newObject nativeShellClass) "shell != NULL" "jsqsh_jni.c" l3
  pure (.shell pid fd)

/-- The boundary function `ShellManager.popen` of `jsqsh_jni.c`.  `cmdArgs` is
the command array; the last argument is the platform back end `jsqsh_popen`
applied to the converted argument vector. -/
def Java_org_sqsh_jni_ShellManager_popen (h : Host) (fuel : Nat) (ah : ArgHost)
    (cmdArgs : List (List Char)) (jsqsh_popen : List (List Char) → Run SpawnEnd) :
    Run BoundaryEnd := do
  emit (.jni "GetArrayLength")
  let nargs := cmdArgs.length
  ASSERT_JNI h fuel (decide (nargs > 0)) "nargs > 0" "jsqsh_jni.c" 62
  ASSERT h fuel ah.malloc "args != NULL" "jsqsh_jni.c" 65
  convertArgs h fuel ah 70 73 0 cmdArgs
  let e ← jsqsh_popen cmdArgs
  match e with
  | .returned rc pid fd => do
    releaseArgs h fuel ah 88 0 cmdArgs
    if rc = 0 then
      newShell h fuel 101 104 108 pid fd
    else
      pure .null
  | other => pure (.child other)

/-- The boundary function `ShellManager.exec` of `jsqsh_jni.c`; the last
argument is the platform back end `jsqsh_exec`. -/
def Java_org_sqsh_jni_ShellManager_exec (h : Host) (fuel : Nat) (ah : ArgHost)
    (cmdArgs : List (List Char)) (jsqsh_exec : List (List Char) → Run SpawnEnd) :
    Run BoundaryEnd := do
  emit (.jni "GetArrayLength")
  let nargs := cmdArgs.length
  ASSERT_JNI h fuel (decide (nargs > 0)) "nargs > 0" "jsqsh_jni.c" 141
  ASSERT h fuel ah.malloc "args != NULL" "jsqsh_jni.c" 144
  convertArgs h fuel ah 149 152 0 cmdArgs
  let e ← jsqsh_exec cmdArgs
  match e with
  | .returned rc pid fd => do
    releaseArgs h fuel ah 167 0 cmdArgs
    if rc = 0 then
      newShell h fuel 180 183 186 pid fd
    else
      pure .null
  | other => pure (.child other)

/-- The four bytes of a `jint` in the order in which the platform stores them. -/
def jintBytes (bigEndian : Bool) (v : Int) : List Nat :=
  let b := intBits v
  let littleFirst := [b % 256, b / 256 % 256, b / 65536 % 256, b / 16777216 % 256]
  if bigEndian then littleFirst.reverse else littleFirst

/-- The memory seen through the pointer `&byte`: the four bytes of the
parameter `byte`, surrounded by the rest of the stack. -/
def jintMem (bigEndian : Bool) (byte : Int) (stack : Int → Nat) : Int → Nat :=
  fun i => if 0 ≤ i ∧ i < 4 then (jintBytes bigEndian byte).getD i.toNat 0 else stack i

/-- The boundary function `ShellManager.writeByte` of `jsqsh_jni.c`:
`jsqsh_write(env, jfd, &byte, 1)`.  `jsqsh_write` is the platform back end,
given the memory behind the buffer pointer and the length. -/
def Java_org_sqsh_jni_ShellManager_writeByte (bigEndian : Bool) (stack : Int → Nat)
    (jsqsh_write : (Int → Nat) → Int → Run WriteState) (byte : Int) : Run WriteState :=
  jsqsh_write (jintMem bigEndian byte stack) 1

/-! ## Vocabulary of the statements about logging -/

/-- The line `_jsqsh_log` writes to standard error in its last step:
severity tag, timestamp with the literal `:000`, message, newline. -/
def stderrLine (h : Host) (severity : Int) (text : String) : String :=
  logSev severity ++ " " ++ (h.now ++ ":000") ++ " " ++ text ++ "\n"

/-- The call of `GetEnv` in `jsqsh_getenv` supplies a runtime context. -/
def Host.contextObtained (h : Host) : Bool := h.getEnvOk && h.getEnvEnv

/-- Sink lookup, method resolution and message construction all succeed. -/
def Host.sinkResolves (h : Host) (severity : Int) (text : String) : Bool :=
  h.findClass "org/sqsh/jni/ShellManager" && h.getStaticMethodID (logMethod severity)
    && h.newStringUTF text

/-- The message `text` can be logged without leaving defined behaviour and
without an assertion of the logger failing: the library is not initialised
(the text goes straight to standard error), or `GetEnv` supplies the runtime
context, the buffer of 2048 bytes is allocated and the text fits it. -/
def Host.canLog (h : Host) (text : String) : Bool :=
  !h.jvm || (h.contextObtained && h.logMalloc && decide (text.utf8ByteSize < LOG_BUFFER_SIZE))

/-- The deliveries to the primary sink during a run, in order: method and text. -/
def sinkCalls : List Event → List (String × String)
  | [] => []
  | .sink m x :: t => (m, x) :: sinkCalls t
  | _ :: t => sinkCalls t

/-- The number of requests to describe the pending exception during a run. -/
def describeCount : List Event → Nat
  | [] => 0
  | .describe :: t => describeCount t + 1
  | _ :: t => describeCount t

/-- An initialised host whose `GetEnv` fails (the calling thread is not
attached to the JVM): it reports an error and stores no `JNIEnv`. -/
def detachedHost : Host := { nominalHost with getEnvOk := false, getEnvEnv := false }

/-- An initialised host whose `GetEnv` fails while an exception is pending. -/
def detachedPendingHost : Host := { detachedHost with exceptionOccurred := true }

/-- A `write` that accepts `2 ^ 31 - 2` bytes on the first call and everything
it is asked for afterwards. -/
def hugeWrite : Nat → Int → WriteReply :=
  fun k count => if k = 0 then ⟨2 ^ 31 - 2, 0⟩ else ⟨count, 0⟩

/-- An initialised host in which no class can be found. -/
def noClassHost : Host := { nominalHost with findClass := fun _ => false }

/-- Answers of a JVM that delivers every array element and string. -/
def nominalArgHost : ArgHost :=
  { getObjectArrayElement := fun _ => true, getStringUTFChars := fun _ => true, malloc := true }

/-- An initialised host that reports a pending exception. -/
def pendingHost : Host := { nominalHost with exceptionOccurred := true }

/-! ## Vocabulary of the statements about the standard-error line -/

/-- The names of the five severities as the specification writes them. -/
def severityName (severity : Int) : String :=
  if severity = LOG_DEBUG then "DEBUG"
  else if severity = LOG_INFO then "INFO"
  else if severity = LOG_WARN then "WARN"
  else if severity = LOG_ERROR then "ERROR"
  else "FATAL"

/-- A text filled up with blanks on the right to five characters. -/
def padTo5 (s : String) : String := s ++ String.mk (List.replicate (5 - s.length) ' ')

/-- The five severities passed by the logging entry points. -/
def severities : List Int := [LOG_DEBUG, LOG_INFO, LOG_WARN, LOG_ERROR, LOG_FATAL]

/-- An argument vector with empty arguments at the start, in the middle and at the end. -/
def emptyArgsArgv : List (List Char) := [[], ['a'], [], [], ['b'], []]

/-! # Theorems -/

/-! ## The `Run` monad -/

@[simp] theorem run_pure_eq {α : Type} (a : α) : (pure a : Run α) = ⟨[], .ret a⟩ := rfl

@[simp] theorem run_bind_ret {α β : Type} (t : List Event) (a : α) (f : α → Run β) :
    ((⟨t, .ret a⟩ : Run α) >>= f) = ⟨t ++ (f a).trace, (f a).out⟩ := rfl

@[simp] theorem run_bind_abort {α β : Type} (t : List Event) (f : α → Run β) :
    ((⟨t, .abort⟩ : Run α) >>= f) = ⟨t, .abort⟩ := rfl

@[simp] theorem run_bind_exhausted {α β : Type} (t : List Event) (f : α → Run β) :
    ((⟨t, .exhausted⟩ : Run α) >>= f) = ⟨t, .exhausted⟩ := rfl

@[simp] theorem run_bind_undefined {α β : Type} (t : List Event) (f : α → Run β) :
    ((⟨t, .undefined⟩ : Run α) >>= f) = ⟨t, .undefined⟩ := rfl

/-- When the allocation and the lookups succeed, `jsqsh_throw` throws exactly
one exception and returns. -/
theorem jsqsh_throw_of_succeeds (h : Host) (fuel : Nat) (errnum : Int) (clazz : Option String)
    (hh : h.throwSucceeds errnum clazz = true) :
    jsqsh_throw h fuel errnum clazz =
      ⟨[.jni "NewStringUTF", .jni "FindClass", .jni "GetMethodID", .jni "NewObject",
        .raise (clazz.getD defaultExceptionClass) (throwMessage h errnum),
        .jni "DeleteLocalRef"], .ret ()⟩ := by
  simp only [Host.throwSucceeds, Bool.and_eq_true] at hh
  obtain ⟨⟨⟨⟨h1, h2⟩, h3⟩, h4⟩, h5⟩ := hh
  simp only [throwMessage] at h2
  simp [jsqsh_throw, ASSERT, ASSERT_JNI, ASSERT_with, ASSERT_JNI_with, h1, h2, h3, h4, h5, emit,
    throwMessage]

/-! ## Reaping (`jsqsh_wait`) -/

/-- C1 (defect): `jsqsh_wait` decodes the return value of `waitpid` (the
process id) instead of the status word.  For the child 1234 that exited with
code 7 it returns 1, and for every process id the result is the same whatever
status word the kernel stored. -/
theorem jsqsh_wait_decodes_pid_not_status (h : Host) (fuel : Nat) :
    Unix.jsqsh_wait h fuel (fun p => reaped p (exitedStatus 7)) 1234 = ⟨[], .ret 1⟩ ∧
    exitedStatus 7 = 0x700 ∧ WIFEXITED (exitedStatus 7) = true ∧
    WEXITSTATUS (exitedStatus 7) = 7 ∧
    ∀ pid s s' : Int, Unix.jsqsh_wait h fuel (fun p => reaped p s) pid =
      Unix.jsqsh_wait h fuel (fun p => reaped p s') pid := by
  refine ⟨rfl, by decide, by decide, by decide, fun _ _ _ => rfl⟩

/-- C2 (defect): for the child 128 killed by signal 9, `jsqsh_wait` returns 0
and for the child 512 killed by signal 9 it returns 2, not the sentinel 1: the
process id, not the status word, is decoded. -/
theorem jsqsh_wait_signaled_not_sentinel (h : Host) (fuel : Nat) :
    WIFEXITED (signaledStatus 9 false) = false ∧
    Unix.jsqsh_wait h fuel (fun p => reaped p (signaledStatus 9 false)) 128 = ⟨[], .ret 0⟩ ∧
    Unix.jsqsh_wait h fuel (fun p => reaped p (signaledStatus 9 false)) 512 = ⟨[], .ret 2⟩ := by
  refine ⟨by decide, rfl, rfl⟩

/-! ## Writing (`jsqsh_write`) -/

/-- C3 (defect): every call of the loop asks for `len` bytes, not for the
bytes that remain.  With a two-byte buffer and a first write that accepts one
byte, the second call is asked for two bytes starting at the second byte; the
operating system, accepting no more than it is asked for, is handed the bytes
`65, 66, 67`, the last of which lies behind the buffer `65, 66`.  Both back
ends behave alike. -/
theorem jsqsh_write_reads_past_buffer (h : Host) (fuel : Nat) :
    (∀ k count, 1 ≤ count →
      1 ≤ (shortWrite k count).rc ∧ (shortWrite k count).rc ≤ count) ∧
    (∀ k count, 1 ≤ count → (shortWriteFile k count).ok = true ∧
      1 ≤ (shortWriteFile k count).nwritten ∧ (shortWriteFile k count).nwritten ≤ count) ∧
    bytesAt sampleMem 0 2 = [65, 66] ∧
    Unix.jsqsh_write h fuel sampleMem shortWrite 2 2 = ⟨[], .ret ⟨3, 3, 2, [65, 66, 67]⟩⟩ ∧
    Win32.jsqsh_write h fuel sampleMem shortWriteFile 2 2 =
      ⟨[], .ret ⟨3, 3, 2, [65, 66, 67]⟩⟩ := by
  refine ⟨?_, ?_, by decide, rfl, rfl⟩
  · intro k count hc
    unfold shortWrite
    split <;> simp [hc]
  · intro k count hc
    unfold shortWriteFile
    split <;> simp [hc]

/-- Beyond `2 ^ 30` the POSIX counter can wrap: for `len = 2 ^ 31 - 1`, a first
write of `2 ^ 31 - 2` bytes and a second of the `2 ^ 31 - 1` bytes asked for,
`nbytes` is negative after two calls and the loop has not ended. -/
theorem unix_write_counter_wraps (h : Host) (fuel : Nat) (mem : Int → Nat) :
    Unix.jsqsh_write h fuel mem hugeWrite (2 ^ 31 - 1) 2 = ⟨[], .exhausted⟩ ∧
    wrap32 ((2 ^ 31 - 2) + (2 ^ 31 - 1)) = -3 := by
  constructor
  · rfl
  · decide

/-- Closing an open descriptor on POSIX: no exception, the descriptor is closed. -/
theorem unix_close_open (h : Host) (fuel : Nat) (s : Sys) (jfd : Int)
    (ho : (s.fds (wrap32 jfd)).isSome = true) :
    Unix.jsqsh_close h fuel s jfd =
      ⟨[], .ret { s with fds := Function.update s.fds (wrap32 jfd) none }⟩ := by
  simp [Unix.jsqsh_close, sys_close, ho]

/-- Closing a closed descriptor on POSIX: one `IOException` for `EBADF`. -/
theorem unix_close_closed (h : Host) (fuel : Nat) (s : Sys) (jfd : Int)
    (hc : s.fds (wrap32 jfd) = none)
    (hh : h.throwSucceeds EBADF (some ioException) = true) :
    Unix.jsqsh_close h fuel s jfd =
      ⟨[.jni "NewStringUTF", .jni "FindClass", .jni "GetMethodID", .jni "NewObject",
        .raise ioException (throwMessage h EBADF), .jni "DeleteLocalRef"],
        .ret { s with errno := EBADF }⟩ := by
  simp [Unix.jsqsh_close, sys_close, hc, jsqsh_throw_of_succeeds h fuel EBADF _ hh]

/-- Closing an open handle on Windows: no exception, the handle is closed. -/
theorem win32_close_open (h : Host) (fuel : Nat) (s : WinSys) (jfd : Int)
    (ho : (s.handles jfd).isSome = true) :
    Win32.jsqsh_close h fuel s jfd =
      ⟨[], .ret { s with handles := Function.update s.handles jfd none }⟩ := by
  simp [Win32.jsqsh_close, closeHandle, ho]

/-- Closing a closed handle on Windows: one `IOException` for the invalid handle. -/
theorem win32_close_closed (h : Host) (fuel : Nat) (s : WinSys) (jfd : Int)
    (hc : s.handles jfd = none)
    (hh : h.throwSucceeds ERROR_INVALID_HANDLE (some ioException) = true) :
    Win32.jsqsh_close h fuel s jfd =
      ⟨[.jni "NewStringUTF", .jni "FindClass", .jni "GetMethodID", .jni "NewObject",
        .raise ioException (throwMessage h ERROR_INVALID_HANDLE), .jni "DeleteLocalRef"],
        .ret { s with lastError := ERROR_INVALID_HANDLE }⟩ := by
  simp [Win32.jsqsh_close, closeHandle, hc,
    jsqsh_throw_of_succeeds h fuel ERROR_INVALID_HANDLE _ hh]

/-- C5: over a descriptor table in which the operating system's close succeeds
only on an open descriptor and then marks it closed, `jsqsh_close` throws an
exception exactly when that close fails; the exception has the class
`java/io/IOException` and the message of the error code the operating system
left.  Closing the same handle a second time throws that exception, closing
an open handle throws nothing, and every call returns to its caller.  The
exception is delivered by `jsqsh_throw`, whose allocation and JVM lookups for
this exception are taken to succeed.  Both back ends are covered. -/
theorem jsqsh_close_raises_iff_close_fails (h : Host) (fuel : Nat) (s : Sys) (w : WinSys)
    (jfd : Int) (hu : h.throwSucceeds EBADF (some ioException) = true)
    (hw : h.throwSucceeds ERROR_INVALID_HANDLE (some ioException) = true) :
    (∃ s1 s2,
      (Unix.jsqsh_close h fuel s jfd).out = .ret s1 ∧
      raised (Unix.jsqsh_close h fuel s jfd).trace =
        (if (sys_close s (wrap32 jfd)).2 < 0 then
          [(ioException, throwMessage h (sys_close s (wrap32 jfd)).1.errno)] else []) ∧
      ((s.fds (wrap32 jfd)).isSome = true → raised (Unix.jsqsh_close h fuel s jfd).trace = []) ∧
      (Unix.jsqsh_close h fuel s1 jfd).out = .ret s2 ∧
      raised (Unix.jsqsh_close h fuel s1 jfd).trace = [(ioException, throwMessage h EBADF)]) ∧
    (∃ w1 w2,
      (Win32.jsqsh_close h fuel w jfd).out = .ret w1 ∧
      raised (Win32.jsqsh_close h fuel w jfd).trace =
        (if (closeHandle w jfd).2 = false then
          [(ioException, throwMessage h (closeHandle w jfd).1.lastError)] else []) ∧
      ((w.handles jfd).isSome = true → raised (Win32.jsqsh_close h fuel w jfd).trace = []) ∧
      (Win32.jsqsh_close h fuel w1 jfd).out = .ret w2 ∧
      raised (Win32.jsqsh_close h fuel w1 jfd).trace =
        [(ioException, throwMessage h ERROR_INVALID_HANDLE)]) := by
  constructor
  · cases ho : (s.fds (wrap32 jfd)).isSome with
    | true =>
      have e1 := unix_close_open h fuel s jfd ho
      have e2 := unix_close_closed h fuel
        { s with fds := Function.update s.fds (wrap32 jfd) none } jfd (by simp) hu
      refine ⟨_, _, by rw [e1], ?_, ?_, by rw [e2], ?_⟩
      · rw [e1]; simp [sys_close, ho, raised]
      · intro _; rw [e1]; rfl
      · rw [e2]; rfl
    | false =>
      have hc : s.fds (wrap32 jfd) = none := by simpa using ho
      have e1 := unix_close_closed h fuel s jfd hc hu
      have e2 := unix_close_closed h fuel { s with errno := EBADF } jfd hc hu
      refine ⟨_, _, by rw [e1], ?_, ?_, by rw [e2], ?_⟩
      · rw [e1]; simp [sys_close, hc, raised]
      · intro hcontra; simp at hcontra
      · rw [e2]; rfl
  · cases ho : (w.handles jfd).isSome with
    | true =>
      have e1 := win32_close_open h fuel w jfd ho
      have e2 := win32_close_closed h fuel
        { w with handles := Function.update w.handles jfd none } jfd (by simp) hw
      refine ⟨_, _, by rw [e1], ?_, ?_, by rw [e2], ?_⟩
      · rw [e1]; simp [closeHandle, ho, raised]
      · intro _; rw [e1]; rfl
      · rw [e2]; rfl
    | false =>
      have hc : w.handles jfd = none := by simpa using ho
      have e1 := win32_close_closed h fuel w jfd hc hw
      have e2 := win32_close_closed h fuel { w with lastError := ERROR_INVALID_HANDLE } jfd hc hw
      refine ⟨_, _, by rw [e1], ?_, ?_, by rw [e2], ?_⟩
      · rw [e1]; simp [closeHandle, hc, raised]
      · intro hcontra; simp at hcontra
      · rw [e2]; rfl

/-- C5 at the open descriptor 1, closed twice. -/
theorem jsqsh_close_raises_iff_close_fails_witness :
    nominalHost.throwSucceeds EBADF (some ioException) = true ∧
    nominalHost.throwSucceeds ERROR_INVALID_HANDLE (some ioException) = true ∧
    (∃ s1 s2,
      (Unix.jsqsh_close nominalHost 1 noStdinSys 1).out = .ret s1 ∧
      raised (Unix.jsqsh_close nominalHost 1 noStdinSys 1).trace =
        (if (sys_close noStdinSys (wrap32 1)).2 < 0 then
          [(ioException, throwMessage nominalHost (sys_close noStdinSys (wrap32 1)).1.errno)]
        else []) ∧
      ((noStdinSys.fds (wrap32 1)).isSome = true →
        raised (Unix.jsqsh_close nominalHost 1 noStdinSys 1).trace = []) ∧
      (Unix.jsqsh_close nominalHost 1 s1 1).out = .ret s2 ∧
      raised (Unix.jsqsh_close nominalHost 1 s1 1).trace =
        [(ioException, throwMessage nominalHost EBADF)]) :=
  ⟨rfl, rfl,
    (jsqsh_close_raises_iff_close_fails nominalHost 1 noStdinSys emptyWinSys 1 rfl rfl).1⟩

/-! ## Spawning with a pipe (`jsqsh_popen`) -/

/-- After a failed `fork` the two `close` calls undo the effect of `pipe`. -/
theorem unix_fork_failure_restores (f : Int → Option Res) (e : Int) (rd wr : Int)
    (hrd : f rd = none) (hwr : f wr = none) :
    (sys_close (sys_close
      { fds := Function.update (Function.update f rd (some .pipeRead)) wr (some .pipeWrite),
        errno := e } rd).1 wr).1.fds = f := by
  by_cases hne : rd = wr
  · subst hne
    funext x
    by_cases hx : x = rd
    · subst hx; simp [sys_close, hrd]
    · simp [sys_close, Function.update, hx]
  · have hne' : wr ≠ rd := fun hh => hne hh.symm
    funext x
    by_cases hx : x = rd
    · subst hx; simp [sys_close, Function.update, hne, hne', hrd]
    · by_cases hx' : x = wr
      · subst hx'; simp [sys_close, Function.update, hne, hne', hwr]
      · simp [sys_close, Function.update, hne, hne', hx, hx']

/-- After a failed `CreateProcess` the two `CloseHandle` calls undo the effect
of `CreatePipe`. -/
theorem win32_process_failure_restores (f : Int → Option WinHandle) (e0 e : Int) (rd wr : Int)
    (hrd : f rd = none) (hwr : f wr = none) :
    (closeHandle (closeHandle
      { clearInherit
          { handles := Function.update (Function.update f rd (some ⟨.pipeRead, true⟩)) wr
              (some ⟨.pipeWrite, true⟩),
            lastError := e0 } wr with lastError := e } rd).1 wr).1.handles = f := by
  by_cases hne : rd = wr
  · subst hne
    funext x
    by_cases hx : x = rd
    · subst hx; simp [closeHandle, clearInherit, hrd]
    · simp [closeHandle, clearInherit, Function.update, hx]
  · have hne' : wr ≠ rd := fun hh => hne hh.symm
    funext x
    by_cases hx : x = rd
    · subst hx; simp [closeHandle, clearInherit, Function.update, hne, hne', hrd]
    · by_cases hx' : x = wr
      · subst hx'; simp [closeHandle, clearInherit, Function.update, hne, hne', hwr]
      · simp [closeHandle, clearInherit, Function.update, hne, hne', hx, hx']

/-- C6: `jsqsh_popen` fails atomically on both back ends.  When pipe creation
fails it returns 1, has thrown exactly one exception (carrying the error code
of the failed call) and the table of open descriptors is unchanged.  When pipe
creation succeeds with two fresh descriptors and process creation (`fork`,
`CreateProcess`) fails with the code `e`, it returns 1, has thrown exactly one
exception carrying `e`, and has closed both pipe ends, so that the table of
open descriptors equals the table before the call.  The exception is
delivered by `jsqsh_throw`, whose allocation and JVM lookups are taken to
succeed. -/
theorem jsqsh_popen_fails_atomically (h : Host) (fuel : Nat) (s : Sys) (w : WinSys)
    (e rd wr : Int) (fork : ForkReply) (execv : Option Int) (args : List (List Char))
    (createProcess : List Char → CreateProcessReply)
    (hh : h.throwSucceeds e none = true)
    (hrd : s.fds rd = none) (hwr : s.fds wr = none)
    (hrd' : w.handles rd = none) (hwr' : w.handles wr = none)
    (hcp : createProcess (Win32.jsqsh_commandline args) = .failed e) :
    (∃ s', (Unix.jsqsh_popen h fuel s (.failed e) fork execv args).out
        = .ret (s', .returned 1 none none) ∧ s'.fds = s.fds ∧
      raised (Unix.jsqsh_popen h fuel s (.failed e) fork execv args).trace
        = [(defaultExceptionClass, throwMessage h e)]) ∧
    (∃ s', (Unix.jsqsh_popen h fuel s (.ok rd wr) (.failed e) execv args).out
        = .ret (s', .returned 1 none none) ∧ s'.fds = s.fds ∧
      raised (Unix.jsqsh_popen h fuel s (.ok rd wr) (.failed e) execv args).trace
        = [(defaultExceptionClass, throwMessage h e)]) ∧
    (∃ w', (Win32.jsqsh_popen h fuel w (.failed e) createProcess args).out
        = .ret (w', .returned 1 none none) ∧ w'.handles = w.handles ∧
      raised (Win32.jsqsh_popen h fuel w (.failed e) createProcess args).trace
        = [(defaultExceptionClass, throwMessage h e)]) ∧
    (∃ w', (Win32.jsqsh_popen h fuel w (.ok rd wr) createProcess args).out
        = .ret (w', .returned 1 none none) ∧ w'.handles = w.handles ∧
      raised (Win32.jsqsh_popen h fuel w (.ok rd wr) createProcess args).trace
        = [(defaultExceptionClass, throwMessage h e)]) := by
  have ht := jsqsh_throw_of_succeeds h fuel e none hh
  refine ⟨?_, ?_, ?_, ?_⟩
  · refine ⟨{ s with errno := e }, ?_, rfl, ?_⟩
    · simp [Unix.jsqsh_popen, ht]
    · simp [Unix.jsqsh_popen, ht, raised]
  · refine ⟨_, ?_, unix_fork_failure_restores s.fds e rd wr hrd hwr, ?_⟩
    · simp [Unix.jsqsh_popen, ht]
    · simp [Unix.jsqsh_popen, ht, raised]
  · refine ⟨{ w with lastError := e }, ?_, rfl, ?_⟩
    · simp [Win32.jsqsh_popen, ht]
    · simp [Win32.jsqsh_popen, ht, raised]
  · refine ⟨_, ?_, win32_process_failure_restores w.handles w.lastError e rd wr hrd' hwr', ?_⟩
    · simp [Win32.jsqsh_popen, ht, hcp]
    · simp [Win32.jsqsh_popen, ht, hcp, raised]

/-- C6 at a failing `fork` after a pipe with the fresh descriptors 3 and 4. -/
theorem jsqsh_popen_fails_atomically_witness :
    nominalHost.throwSucceeds 11 none = true ∧ noStdinSys.fds 3 = none ∧
    noStdinSys.fds 4 = none ∧
    (∃ s', (Unix.jsqsh_popen nominalHost 1 noStdinSys (.ok 3 4) (.failed 11) none sampleArgv).out
        = .ret (s', .returned 1 none none) ∧ s'.fds = noStdinSys.fds ∧
      raised (Unix.jsqsh_popen nominalHost 1 noStdinSys (.ok 3 4) (.failed 11) none
        sampleArgv).trace = [(defaultExceptionClass, throwMessage nominalHost 11)]) :=
  ⟨rfl, by decide, by decide,
    (jsqsh_popen_fails_atomically nominalHost 1 noStdinSys emptyWinSys 11 3 4 (.failed 11) none
      sampleArgv (fun _ => .failed 11) rfl (by decide) (by decide) rfl rfl rfl).2.1⟩

/-- C7 (defect): after a successful `jsqsh_popen` on Windows (pipe handles
100 and 104, process handle 200) the call returns 0 with the process handle
and the write end 104, but the parent's read end 100 is still open: it is
never closed.  The POSIX back end, for contrast, closes its read end 3 and is
left with the write end 4 only. -/
theorem win32_popen_leaves_read_end_open (h : Host) (fuel : Nat) (args : List (List Char)) :
    (∃ w', (Win32.jsqsh_popen h fuel emptyWinSys (.ok 100 104) (fun _ => .ok 200 204) args).out
        = .ret (w', .returned 0 (some 200) (some 104)) ∧
      w'.handles 104 = some ⟨.pipeWrite, false⟩ ∧ w'.handles 200 = some ⟨.process, false⟩ ∧
      w'.handles 100 = some ⟨.pipeRead, true⟩) ∧
    (∃ s', (Unix.jsqsh_popen h fuel noStdinSys (.ok 3 4) (.parent 4242) none args).out
        = .ret (s', .returned 0 (some 4242) (some 4)) ∧
      s'.fds 4 = some .pipeWrite ∧ s'.fds 3 = none) := by
  constructor
  · exact ⟨_, rfl, by decide, by decide, by decide⟩
  · exact ⟨_, rfl, by decide, by decide⟩

/-- C8 (defect): when the parent's standard input is closed and `pipe`
returns the read end as descriptor 0 (write end 3), the child skips `dup2`
and then closes descriptor 0, so that it replaces its image with standard
input closed.  With the read end 3 and the write end 4, for contrast,
descriptor 0 refers to the read end and both 3 and 4 are closed. -/
theorem unix_popen_child_closes_stdin (h : Host) (fuel : Nat) (args : List (List Char)) :
    (∃ s', (Unix.jsqsh_popen h fuel noStdinSys (.ok 0 3) .child none args).out
        = .ret (s', .execed args) ∧ s'.fds 0 = none ∧ s'.fds 3 = none) ∧
    (∃ s', (Unix.jsqsh_popen h fuel noStdinSys (.ok 3 4) .child none args).out
        = .ret (s', .execed args) ∧ s'.fds 0 = some .pipeRead ∧ s'.fds 3 = none ∧
        s'.fds 4 = none) := by
  constructor
  · exact ⟨_, rfl, by decide, by decide⟩
  · exact ⟨_, rfl, by decide, by decide, by decide⟩

/-! ## Command-line re-serialisation (`jsqsh_commandline`) -/

/-- Cutting a list after exactly its own length drops what was appended. -/
theorem take_of_length_le {α : Type} (l m : List α) (n : Nat) (h : l.length = n) :
    (l ++ m).take n = l := by
  subst h
  simp

/-- The inner loop appends the argument and cuts the buffer at 1023 characters. -/
theorem copyArg_eq_take : ∀ (arg cl : List Char), cl.length ≤ 1023 →
    Win32.copyArg cl arg = (cl ++ arg).take 1023
  | [], cl, h => by
    simp [Win32.copyArg, List.take_of_length_le h]
  | c :: arg, cl, h => by
    unfold Win32.copyArg
    by_cases hlt : cl.length < 1023
    · rw [if_pos hlt, copyArg_eq_take arg (cl ++ [c]) (by simp; omega)]
      simp
    · rw [if_neg hlt]
      exact (take_of_length_le cl (c :: arg) 1023 (by omega)).symm

/-- Cutting twice at the same length is cutting once. -/
theorem take_take_append {α : Type} (a b : List α) (n : Nat) :
    ((a.take n) ++ b).take n = (a ++ b).take n := by
  by_cases h : a.length ≤ n
  · rw [List.take_of_length_le h]
  · have h1 : (a.take n).length = n := by simp; omega
    rw [take_of_length_le _ _ _ h1, List.take_append_of_le_length (by omega)]

/-- The outer loop appends the pending text and cuts the buffer at 1023 characters. -/
theorem commandlineLoop_eq_take : ∀ (rest : List (List Char)) (i : Nat) (cl : List Char),
    cl.length ≤ 1023 →
    Win32.commandlineLoop i cl rest = (cl ++ pendingText i rest).take 1023
  | [], i, cl, h => by
    simp [Win32.commandlineLoop, pendingText, List.take_of_length_le h]
  | arg :: rest, i, cl, h => by
    unfold Win32.commandlineLoop
    by_cases hlt : cl.length < 1023
    · rw [if_pos hlt]
      have hsep : (if i > 0 then cl ++ [' '] else cl).length ≤ 1023 := by
        split
        · simp; omega
        · omega
      rw [copyArg_eq_take arg _ hsep,
        commandlineLoop_eq_take rest (i + 1) _ (by simp [List.length_take]),
        take_take_append]
      congr 1
      by_cases hi : i > 0 <;> simp [pendingText, hi]
    · rw [if_neg hlt]
      exact (take_of_length_le cl _ 1023 (by omega)).symm

/-- After the first argument every argument is preceded by one space. -/
theorem pendingText_succ : ∀ (rest : List (List Char)) (i : Nat),
    pendingText (i + 1) rest = (rest.map (fun a => ' ' :: a)).flatten
  | [], i => by simp [pendingText]
  | arg :: rest, i => by
    simp [pendingText, pendingText_succ rest (i + 1)]

/-- The single-space join of a non-empty vector, unfolded at its head. -/
theorem intercalate_cons (a : List Char) : ∀ (rest : List (List Char)),
    List.intercalate [' '] (a :: rest) = a ++ (rest.map (fun b => ' ' :: b)).flatten
  | [] => by simp [List.intercalate]
  | b :: rest => by
    have ih := intercalate_cons b rest
    simp only [List.intercalate] at ih ⊢
    simp [ih]

/-- From index 0 the pending text is the single-space join. -/
theorem pendingText_zero (argv : List (List Char)) :
    pendingText 0 argv = List.intercalate [' '] argv := by
  cases argv with
  | nil => simp [pendingText, List.intercalate]
  | cons a rest => simp [pendingText, pendingText_succ, intercalate_cons]

/-- The command line is the single-space join of the arguments cut after 1023
characters. -/
theorem jsqsh_commandline_eq_take (argv : List (List Char)) :
    Win32.jsqsh_commandline argv = (List.intercalate [' '] argv).take 1023 := by
  unfold Win32.jsqsh_commandline
  rw [commandlineLoop_eq_take argv 0 [] (by simp), pendingText_zero]
  simp

/-- C9 fails as stated: for one argument of 1024 characters the command line
produced has 1023 characters and so differs from the join, which has 1024. -/
theorem jsqsh_commandline_cuts_long_argument :
    Win32.jsqsh_commandline longArgv ≠ List.intercalate [' '] longArgv ∧
    (Win32.jsqsh_commandline longArgv).length = 1023 ∧
    (List.intercalate [' '] longArgv).length = 1024 := by
  have hj : List.intercalate [' '] longArgv = List.replicate 1024 'a' := by
    unfold longArgv
    rw [intercalate_cons]
    exact List.append_nil _
  have h2 : (List.intercalate [' '] longArgv).length = 1024 := by
    rw [hj, List.length_replicate]
  have h1 : (Win32.jsqsh_commandline longArgv).length = 1023 := by
    rw [jsqsh_commandline_eq_take, List.length_take, h2]
    rfl
  refine ⟨fun he => ?_, h1, h2⟩
  rw [he, h2] at h1
  exact absurd h1 (by decide)

/-- C9, amended: for every argument vector whose single-space join has at
most 1023 characters, the command line produced is exactly that join: the
arguments in order, one space between consecutive arguments, no character
added, removed, quoted or escaped. -/
theorem jsqsh_commandline_eq_join (argv : List (List Char))
    (hlen : (List.intercalate [' '] argv).length ≤ 1023) :
    Win32.jsqsh_commandline argv = List.intercalate [' '] argv := by
  rw [jsqsh_commandline_eq_take, List.take_of_length_le hlen]

/-- C9 at an argument vector with a space and double quotes inside arguments. -/
theorem jsqsh_commandline_eq_join_witness :
    (List.intercalate [' '] sampleArgv).length ≤ 1023 ∧
    Win32.jsqsh_commandline sampleArgv = List.intercalate [' '] sampleArgv ∧
    Win32.jsqsh_commandline sampleArgv =
      ['d', 'i', 'r', ' ', 'a', ' ', 'b', ' ', Char.ofNat 34, 'q', Char.ofNat 34] :=
  ⟨by decide, jsqsh_commandline_eq_join sampleArgv (by decide), by decide⟩

/-! ## Logging before initialisation -/

/-- C10: when no primary sink has been established (`g_jvm` is `NULL`), for
every severity and every message each logging entry point writes the formatted
message to standard error exactly once, with no severity tag and no
timestamp, makes no JNI call, throws nothing and returns: its whole trace is
that one write. -/
theorem jsqsh_log_before_init (h : Host) (fuel : Nat) (severity : Int) (text : String)
    (hj : h.jvm = false) :
    _jsqsh_log h (fuel + 1) severity text = ⟨[.stderr text], .ret ()⟩ ∧
    jsqsh_debug h (fuel + 1) text = ⟨[.stderr text], .ret ()⟩ ∧
    jsqsh_info h (fuel + 1) text = ⟨[.stderr text], .ret ()⟩ ∧
    jsqsh_warn h (fuel + 1) text = ⟨[.stderr text], .ret ()⟩ ∧
    jsqsh_error h (fuel + 1) text = ⟨[.stderr text], .ret ()⟩ ∧
    jsqsh_fatal h (fuel + 1) text = ⟨[.stderr text], .ret ()⟩ := by
  have key : ∀ sev : Int, _jsqsh_log h (fuel + 1) sev text = ⟨[.stderr text], .ret ()⟩ := by
    intro sev
    simp [_jsqsh_log, hj, emit]
  exact ⟨key _, key _, key _, key _, key _, key _⟩

/-- C10 at a host that has not been initialised. -/
theorem jsqsh_log_before_init_witness :
    uninitialisedHost.jvm = false ∧
    _jsqsh_log uninitialisedHost 1 LOG_WARN "disk full" = ⟨[.stderr "disk full"], .ret ()⟩ ∧
    jsqsh_fatal uninitialisedHost 1 "disk full" = ⟨[.stderr "disk full"], .ret ()⟩ :=
  ⟨rfl, (jsqsh_log_before_init uninitialisedHost 0 LOG_WARN "disk full" rfl).1,
    (jsqsh_log_before_init uninitialisedHost 0 LOG_WARN "disk full" rfl).2.2.2.2.2⟩

/-! ## Logging after initialisation -/

/-- When `GetEnv` supplies a context, `jsqsh_getenv` makes that one call and returns. -/
theorem getenv_with_of_context (h : Host) (fatal : String → Run Unit)
    (hc : h.contextObtained = true) :
    getenv_with h fatal = ⟨[.jni "GetEnv"], .ret h.getEnvEnv⟩ := by
  simp only [Host.contextObtained] at hc
  simp [getenv_with, ASSERT_JNI_with, emit, hc]

/-- The run of `_jsqsh_log` on an initialised host whose `GetEnv` succeeds, by
the outcome of the three resolution steps. -/
theorem jsqsh_log_initialised (h : Host) (fuel : Nat) (severity : Int) (text : String)
    (hj : h.jvm = true) (hc : h.contextObtained = true) (hm : h.logMalloc = true)
    (hlen : text.utf8ByteSize < LOG_BUFFER_SIZE) :
    _jsqsh_log h (fuel + 1) severity text =
      ⟨.jni "GetEnv" :: .jni "FindClass" ::
        (if h.findClass "org/sqsh/jni/ShellManager" = false then
          [.stderr (stderrLine h severity text)]
        else .jni "GetStaticMethodID" ::
          (if h.getStaticMethodID (logMethod severity) = false then
            [.stderr (stderrLine h severity text)]
          else .jni "NewStringUTF" ::
            (if h.newStringUTF text = false then
              [.stderr (stderrLine h severity text)]
            else .sink (logMethod severity) text :: .jni "DeleteLocalRef" ::
              (if severity = LOG_FATAL then [.stderr (stderrLine h severity text)] else [])))),
        .ret ()⟩ := by
  have hg := getenv_with_of_context h (_jsqsh_log h fuel LOG_FATAL) hc
  have hfit : ¬ LOG_BUFFER_SIZE ≤ text.utf8ByteSize := Nat.not_le.mpr hlen
  by_cases hs : severity = LOG_FATAL
  · subst hs
    cases h1 : h.findClass "org/sqsh/jni/ShellManager" <;>
    cases h2 : h.getStaticMethodID (logMethod LOG_FATAL) <;>
    cases h3 : h.newStringUTF text <;>
    simp [_jsqsh_log, hj, hg, hm, hfit, logResolve, emit, h1, h2, h3, stderrLine]
  · cases h1 : h.findClass "org/sqsh/jni/ShellManager" <;>
    cases h2 : h.getStaticMethodID (logMethod severity) <;>
    cases h3 : h.newStringUTF text <;>
    simp [_jsqsh_log, hj, hg, hm, hfit, logResolve, emit, h1, h2, h3, hs, stderrLine]

/-- C11: after initialisation, with the runtime context obtained, for every
severity and every outcome of the three sink-resolution steps `_jsqsh_log`
returns, and it writes to standard error exactly once, the tagged line, if one
of the resolution steps failed or the severity is FATAL; otherwise it writes
nothing to standard error.  The message buffer of 2048 bytes is allocated and
the formatted message, with its terminating NUL, fits it. -/
theorem jsqsh_log_stderr_iff_failed_or_fatal (h : Host) (fuel : Nat) (severity : Int)
    (text : String) (hj : h.jvm = true) (hc : h.contextObtained = true)
    (hm : h.logMalloc = true) (hlen : text.utf8ByteSize < LOG_BUFFER_SIZE) :
    (_jsqsh_log h (fuel + 1) severity text).out = .ret () ∧
    stderrLines (_jsqsh_log h (fuel + 1) severity text).trace =
      (if h.sinkResolves severity text = false ∨ severity = LOG_FATAL then
        [stderrLine h severity text] else []) := by
  rw [jsqsh_log_initialised h fuel severity text hj hc hm hlen]
  refine ⟨rfl, ?_⟩
  by_cases hs : severity = LOG_FATAL
  · subst hs
    cases h1 : h.findClass "org/sqsh/jni/ShellManager" <;>
    cases h2 : h.getStaticMethodID (logMethod LOG_FATAL) <;>
    cases h3 : h.newStringUTF text <;>
    simp [Host.sinkResolves, h1, h2, h3, stderrLines]
  · cases h1 : h.findClass "org/sqsh/jni/ShellManager" <;>
    cases h2 : h.getStaticMethodID (logMethod severity) <;>
    cases h3 : h.newStringUTF text <;>
    simp [Host.sinkResolves, h1, h2, h3, hs, stderrLines]

/-- C11 at the nominal host: a delivered warning writes nothing to standard error. -/
theorem jsqsh_log_stderr_iff_failed_or_fatal_witness :
    nominalHost.jvm = true ∧ nominalHost.contextObtained = true ∧
    nominalHost.logMalloc = true ∧ "disk full".utf8ByteSize < LOG_BUFFER_SIZE ∧
    (_jsqsh_log nominalHost 1 LOG_WARN "disk full").out = .ret () ∧
    stderrLines (_jsqsh_log nominalHost 1 LOG_WARN "disk full").trace =
      (if nominalHost.sinkResolves LOG_WARN "disk full" = false ∨ LOG_WARN = LOG_FATAL then
        [stderrLine nominalHost LOG_WARN "disk full"] else []) :=
  ⟨rfl, rfl, rfl, by decide,
    jsqsh_log_stderr_iff_failed_or_fatal nominalHost 0 LOG_WARN "disk full" rfl rfl rfl
      (by decide)⟩

/-- C12: after initialisation, with the runtime context obtained, the sink
method named after the severity is invoked exactly once with the formatted
message if and only if sink lookup, method resolution and message
construction all succeed.  When one of them fails the run consists of the
calls made up to the failing step followed by the write of the tagged line to
standard error: no later step, no delivery, no exception, no assertion
helper.  In every case the function returns and the message has reached the
sink or standard error.  The message buffer of 2048 bytes is allocated and the
formatted message, with its terminating NUL, fits it. -/
theorem jsqsh_log_sink_resolution (h : Host) (fuel : Nat) (severity : Int) (text : String)
    (hj : h.jvm = true) (hc : h.contextObtained = true) (hm : h.logMalloc = true)
    (hlen : text.utf8ByteSize < LOG_BUFFER_SIZE) :
    (_jsqsh_log h (fuel + 1) severity text).out = .ret () ∧
    raised (_jsqsh_log h (fuel + 1) severity text).trace = [] ∧
    sinkCalls (_jsqsh_log h (fuel + 1) severity text).trace =
      (if h.sinkResolves severity text = true then [(logMethod severity, text)] else []) ∧
    (h.findClass "org/sqsh/jni/ShellManager" = false →
      (_jsqsh_log h (fuel + 1) severity text).trace =
        [.jni "GetEnv", .jni "FindClass", .stderr (stderrLine h severity text)]) ∧
    (h.findClass "org/sqsh/jni/ShellManager" = true →
      h.getStaticMethodID (logMethod severity) = false →
      (_jsqsh_log h (fuel + 1) severity text).trace =
        [.jni "GetEnv", .jni "FindClass", .jni "GetStaticMethodID",
          .stderr (stderrLine h severity text)]) ∧
    (h.findClass "org/sqsh/jni/ShellManager" = true →
      h.getStaticMethodID (logMethod severity) = true → h.newStringUTF text = false →
      (_jsqsh_log h (fuel + 1) severity text).trace =
        [.jni "GetEnv", .jni "FindClass", .jni "GetStaticMethodID", .jni "NewStringUTF",
          .stderr (stderrLine h severity text)]) ∧
    (h.sinkResolves severity text = true →
      (_jsqsh_log h (fuel + 1) severity text).trace =
        [.jni "GetEnv", .jni "FindClass", .jni "GetStaticMethodID", .jni "NewStringUTF",
          .sink (logMethod severity) text, .jni "DeleteLocalRef"] ++
          (if severity = LOG_FATAL then [.stderr (stderrLine h severity text)] else [])) ∧
    (sinkCalls (_jsqsh_log h (fuel + 1) severity text).trace = [(logMethod severity, text)] ∨
      stderrLines (_jsqsh_log h (fuel + 1) severity text).trace =
        [stderrLine h severity text]) ∧
    logMethod LOG_DEBUG = "debug" ∧ logMethod LOG_INFO = "info" ∧
    logMethod LOG_WARN = "warn" ∧ logMethod LOG_ERROR = "error" ∧
    logMethod LOG_FATAL = "fatal" := by
  rw [jsqsh_log_initialised h fuel severity text hj hc hm hlen]
  refine ⟨rfl, ?_, ?_, ?_, ?_, ?_, ?_, ?_, by decide, by decide, by decide, by decide, by decide⟩
  all_goals
    by_cases hs : severity = LOG_FATAL
    · subst hs
      cases h1 : h.findClass "org/sqsh/jni/ShellManager" <;>
      cases h2 : h.getStaticMethodID (logMethod LOG_FATAL) <;>
      cases h3 : h.newStringUTF text <;>
      simp [Host.sinkResolves, h1, h2, h3, stderrLines, sinkCalls, raised]
    · cases h1 : h.findClass "org/sqsh/jni/ShellManager" <;>
      cases h2 : h.getStaticMethodID (logMethod severity) <;>
      cases h3 : h.newStringUTF text <;>
      simp [Host.sinkResolves, h1, h2, h3, hs, stderrLines, sinkCalls, raised]

/-- C12 at a host whose sink lookup fails: the run stops after `FindClass`. -/
theorem jsqsh_log_sink_resolution_witness :
    noClassHost.jvm = true ∧ noClassHost.contextObtained = true ∧
    noClassHost.logMalloc = true ∧ "disk full".utf8ByteSize < LOG_BUFFER_SIZE ∧
    (_jsqsh_log noClassHost 1 LOG_WARN "disk full").out = .ret () ∧
    raised (_jsqsh_log noClassHost 1 LOG_WARN "disk full").trace = [] ∧
    sinkCalls (_jsqsh_log noClassHost 1 LOG_WARN "disk full").trace =
      (if noClassHost.sinkResolves LOG_WARN "disk full" = true then
        [(logMethod LOG_WARN, "disk full")] else []) :=
  ⟨rfl, rfl, rfl, by decide,
    (jsqsh_log_sink_resolution noClassHost 0 LOG_WARN "disk full" rfl rfl rfl (by decide)).1,
    (jsqsh_log_sink_resolution noClassHost 0 LOG_WARN "disk full" rfl rfl rfl (by decide)).2.1,
    (jsqsh_log_sink_resolution noClassHost 0 LOG_WARN "disk full" rfl rfl rfl
      (by decide)).2.2.1⟩

/-- The run of `jsqsh_fatal` on a message that can be logged: it returns,
having written to standard error once and requested no exception description. -/
theorem jsqsh_fatal_run (h : Host) (fuel : Nat) (text : String)
    (hc : h.canLog text = true) :
    (jsqsh_fatal h (fuel + 1) text).out = .ret () ∧
    stderrLines (jsqsh_fatal h (fuel + 1) text).trace =
      [if h.jvm = true then stderrLine h LOG_FATAL text else text] ∧
    describeCount (jsqsh_fatal h (fuel + 1) text).trace = 0 := by
  unfold jsqsh_fatal
  cases hj : h.jvm with
  | false =>
    have e : _jsqsh_log h (fuel + 1) LOG_FATAL text = ⟨[.stderr text], .ret ()⟩ := by
      simp [_jsqsh_log, hj, emit]
    rw [e]
    simp [stderrLines, describeCount]
  | true =>
    simp only [Host.canLog, hj, Bool.not_true, Bool.false_or, Bool.and_eq_true,
      decide_eq_true_eq] at hc
    rw [jsqsh_log_initialised h fuel LOG_FATAL text hj hc.1.1 hc.1.2 hc.2]
    cases h1 : h.findClass "org/sqsh/jni/ShellManager" <;>
    cases h2 : h.getStaticMethodID (logMethod LOG_FATAL) <;>
    cases h3 : h.newStringUTF text <;>
    simp [h1, h2, h3, stderrLines, describeCount]

/-- A run followed by `abort()`: the events are those of the run. -/
theorem bind_abort_of_ret {α : Type} (r : Run Unit) (hr : r.out = .ret ()) :
    (r >>= fun _ => (abort : Run α)) = ⟨r.trace, .abort⟩ := by
  obtain ⟨t, o⟩ := r
  simp only at hr
  subst hr
  simp [abort]

/-! ## Invariant checks -/

/-- On a host that can log the assertion message, whether or not the primary
sink is initialised and whatever the outcome of the delivery to it,
`jsqsh_assert_fail` writes to standard error exactly once, a text that
contains the message naming the file, the line and the failed expression (the
bare message before initialisation, the tagged FATAL line after it), and then
ends in `abort()`. -/
theorem jsqsh_assert_fail_writes_once_and_aborts {α : Type} (h : Host) (fuel : Nat)
    (expr file : String) (line : Nat) (hc : h.canLog (assertText expr file line) = true) :
    (jsqsh_assert_fail h (fuel + 1) expr file line : Run α).out = .abort ∧
    stderrLines (jsqsh_assert_fail h (fuel + 1) expr file line : Run α).trace =
      [if h.jvm = true then stderrLine h LOG_FATAL (assertText expr file line)
        else assertText expr file line] ∧
    assertText expr file line =
      file ++ ": " ++ toString line ++ ": Assertion failed: " ++ expr ++ "\n" := by
  obtain ⟨h1, h2, _⟩ := jsqsh_fatal_run h fuel (assertText expr file line) hc
  have e : (jsqsh_assert_fail h (fuel + 1) expr file line : Run α) =
      ⟨(jsqsh_fatal h (fuel + 1) (assertText expr file line)).trace, .abort⟩ :=
    bind_abort_of_ret _ h1
  rw [e]
  exact ⟨rfl, h2, rfl⟩

/-- The nominal host logs a failed assertion once and aborts. -/
theorem jsqsh_assert_fail_writes_once_and_aborts_witness :
    nominalHost.canLog (assertText "len > 0" "jsqsh_unix.c" 7) = true ∧
    (jsqsh_assert_fail nominalHost 1 "len > 0" "jsqsh_unix.c" 7 : Run Unit).out = .abort ∧
    stderrLines (jsqsh_assert_fail nominalHost 1 "len > 0" "jsqsh_unix.c" 7 : Run Unit).trace =
      [if nominalHost.jvm = true then
        stderrLine nominalHost LOG_FATAL (assertText "len > 0" "jsqsh_unix.c" 7)
        else assertText "len > 0" "jsqsh_unix.c" 7] :=
  ⟨by decide,
    (jsqsh_assert_fail_writes_once_and_aborts nominalHost 0 "len > 0" "jsqsh_unix.c" 7
      (by decide)).1,
    (jsqsh_assert_fail_writes_once_and_aborts nominalHost 0 "len > 0" "jsqsh_unix.c" 7
      (by decide)).2.1⟩

/-- On a host that can log the two assertion messages,
`jsqsh_assert_jni_fail` asks the host to describe its pending exception
exactly when the `env` argument is non-null and the host reports a pending
exception; in that case the failed expression has been logged through
`jsqsh_fatal` before the request.  With a null `env` the run is that of
`jsqsh_assert_fail`; with no exception pending it is the query
`ExceptionOccurred` followed by the run of `jsqsh_assert_fail`.  In every case
the function ends in `abort()`. -/
theorem jsqsh_assert_jni_fail_describes_iff_pending {α : Type} (h : Host) (fuel : Nat)
    (envNonNull : Bool) (expr file : String) (line : Nat)
    (hc : h.canLog (assertText expr file line) = true)
    (hc' : h.canLog (assertJniText expr file line) = true) :
    (jsqsh_assert_jni_fail h (fuel + 1) envNonNull expr file line : Run α).out = .abort ∧
    describeCount (jsqsh_assert_jni_fail h (fuel + 1) envNonNull expr file line : Run α).trace =
      (if envNonNull = true ∧ h.exceptionOccurred = true then 1 else 0) ∧
    (envNonNull = true → h.exceptionOccurred = true →
      (jsqsh_assert_jni_fail h (fuel + 1) envNonNull expr file line : Run α).trace =
        .jni "ExceptionOccurred" ::
          ((jsqsh_fatal h (fuel + 1) (assertJniText expr file line)).trace ++ [.describe])) ∧
    (envNonNull = false →
      (jsqsh_assert_jni_fail h (fuel + 1) envNonNull expr file line : Run α) =
        jsqsh_assert_fail h (fuel + 1) expr file line) ∧
    (envNonNull = true → h.exceptionOccurred = false →
      (jsqsh_assert_jni_fail h (fuel + 1) envNonNull expr file line : Run α) =
        ⟨.jni "ExceptionOccurred" ::
          (jsqsh_assert_fail h (fuel + 1) expr file line : Run α).trace,
          (jsqsh_assert_fail h (fuel + 1) expr file line : Run α).out⟩) := by
  obtain ⟨p1, p2, p3⟩ := jsqsh_fatal_run h fuel (assertText expr file line) hc
  obtain ⟨q1, q2, q3⟩ := jsqsh_fatal_run h fuel (assertJniText expr file line) hc'
  have eplain : (jsqsh_assert_fail h (fuel + 1) expr file line : Run α) =
      ⟨(jsqsh_fatal h (fuel + 1) (assertText expr file line)).trace, .abort⟩ :=
    bind_abort_of_ret _ p1
  have describeCount_append : ∀ (t u : List Event),
      describeCount (t ++ u) = describeCount t + describeCount u := by
    intro t u
    induction t with
    | nil => simp [describeCount]
    | cons e t ih => cases e <;> simp [describeCount, ih]; omega
  cases he : envNonNull with
  | false =>
    have e : (jsqsh_assert_jni_fail h (fuel + 1) false expr file line : Run α) =
        jsqsh_assert_fail h (fuel + 1) expr file line := by
      simp [jsqsh_assert_jni_fail, assert_jni_fail_with, jsqsh_assert_fail]
    rw [e, eplain]
    simp [p3]
  | true =>
    cases hp : h.exceptionOccurred with
    | false =>
      have e : (jsqsh_assert_jni_fail h (fuel + 1) true expr file line : Run α) =
          ⟨.jni "ExceptionOccurred" ::
            (jsqsh_assert_fail h (fuel + 1) expr file line : Run α).trace,
            (jsqsh_assert_fail h (fuel + 1) expr file line : Run α).out⟩ := by
        simp only [jsqsh_assert_jni_fail, assert_jni_fail_with, jsqsh_assert_fail, hp]
        rfl
      rw [e, eplain]
      simp [describeCount, p3]
    | true =>
      have e : (jsqsh_assert_jni_fail h (fuel + 1) true expr file line : Run α) =
          ⟨.jni "ExceptionOccurred" ::
            ((jsqsh_fatal h (fuel + 1) (assertJniText expr file line)).trace ++ [.describe]),
            .abort⟩ := by
        simp only [jsqsh_assert_jni_fail, assert_jni_fail_with, hp]
        generalize jsqsh_fatal h (fuel + 1) (assertJniText expr file line) = r at q1 ⊢
        obtain ⟨t, o⟩ := r
        simp only at q1
        subst q1
        simp [emit, abort]
      rw [e]
      simp [describeCount, describeCount_append, q3]

/-- A host with a pending exception, called with a non-null `env`, is asked
once to describe the exception. -/
theorem jsqsh_assert_jni_fail_describes_iff_pending_witness :
    pendingHost.canLog (assertText "jstr != NULL" "jsqsh_jni.c" 70) = true ∧
    pendingHost.canLog (assertJniText "jstr != NULL" "jsqsh_jni.c" 70) = true ∧
    (jsqsh_assert_jni_fail pendingHost 1 true "jstr != NULL" "jsqsh_jni.c" 70 : Run Unit).out
      = .abort ∧
    describeCount
      (jsqsh_assert_jni_fail pendingHost 1 true "jstr != NULL" "jsqsh_jni.c" 70 : Run Unit).trace
      = (if true = true ∧ pendingHost.exceptionOccurred = true then 1 else 0) :=
  ⟨by decide, by decide,
    (jsqsh_assert_jni_fail_describes_iff_pending pendingHost 0 true "jstr != NULL"
      "jsqsh_jni.c" 70 (by decide) (by decide)).1,
    (jsqsh_assert_jni_fail_describes_iff_pending pendingHost 0 true "jstr != NULL"
      "jsqsh_jni.c" 70 (by decide) (by decide)).2.1⟩

/-! ## Logging without a runtime context -/

/-- On an initialised host whose `GetEnv` stores no `JNIEnv`, every call of
`_jsqsh_log` uses up its whole nesting budget: each level calls `GetEnv`,
fails the assertion of `jsqsh_getenv` and logs the failure through
`jsqsh_fatal` one level deeper. -/
theorem jsqsh_log_without_context (h : Host) (hj : h.jvm = true) (he : h.getEnvEnv = false) :
    ∀ (fuel : Nat) (severity : Int) (text : String),
      _jsqsh_log h fuel severity text = ⟨List.replicate fuel (.jni "GetEnv"), .exhausted⟩
  | 0, _, _ => rfl
  | fuel + 1, severity, text => by
    have ih := jsqsh_log_without_context h hj he fuel LOG_FATAL
    simp [_jsqsh_log, hj, he, getenv_with, ASSERT_JNI_with, assert_jni_fail_with,
      assert_fail_with, emit, List.replicate_succ, ih]

/-- Repeated `GetEnv` calls request no exception description. -/
theorem describeCount_replicate_getenv (n : Nat) :
    describeCount (List.replicate n (.jni "GetEnv")) = 0 := by
  induction n with
  | zero => rfl
  | succ n ih => simp [List.replicate_succ, describeCount, ih]

/-- On the detached host every call of `_jsqsh_log` uses up its whole nesting
budget: each level calls `GetEnv`, fails the assertion of `jsqsh_getenv` and
logs the failure through `jsqsh_fatal` one level deeper. -/
theorem jsqsh_log_detached : ∀ (fuel : Nat) (severity : Int) (text : String),
    _jsqsh_log detachedHost fuel severity text =
      ⟨List.replicate fuel (.jni "GetEnv"), .exhausted⟩
  | 0, _, _ => rfl
  | fuel + 1, severity, text => by
    have ih := jsqsh_log_detached fuel LOG_FATAL
    simp [_jsqsh_log, detachedHost, nominalHost, getenv_with, ASSERT_JNI_with,
      assert_jni_fail_with, assert_fail_with, emit, List.replicate_succ] at ih ⊢
    simp [ih]

/-- Repeated `GetEnv` calls write nothing to standard error. -/
theorem stderrLines_replicate_getenv (n : Nat) :
    stderrLines (List.replicate n (.jni "GetEnv")) = [] := by
  induction n with
  | zero => rfl
  | succ n ih => simp [List.replicate_succ, stderrLines, ih]

/-- Repeated `GetEnv` calls deliver nothing to the primary sink. -/
theorem sinkCalls_replicate_getenv (n : Nat) :
    sinkCalls (List.replicate n (.jni "GetEnv")) = [] := by
  induction n with
  | zero => rfl
  | succ n ih => simp [List.replicate_succ, sinkCalls, ih]

/-- C19 (defect): on an initialised host whose `GetEnv` fails, every logging
entry point uses up every nesting budget without returning and without
writing anything to standard error or to the sink: `jsqsh_getenv`, called by
`_jsqsh_log`, hands the failed `GetEnv` to the assertion helper
`jsqsh_assert_jni_fail`, which logs through `jsqsh_fatal`, which calls
`jsqsh_getenv` again. -/
theorem jsqsh_log_recurses_when_getenv_fails (fuel : Nat) (text : String) :
    jsqsh_debug detachedHost fuel text = ⟨List.replicate fuel (.jni "GetEnv"), .exhausted⟩ ∧
    jsqsh_info detachedHost fuel text = ⟨List.replicate fuel (.jni "GetEnv"), .exhausted⟩ ∧
    jsqsh_warn detachedHost fuel text = ⟨List.replicate fuel (.jni "GetEnv"), .exhausted⟩ ∧
    jsqsh_error detachedHost fuel text = ⟨List.replicate fuel (.jni "GetEnv"), .exhausted⟩ ∧
    jsqsh_fatal detachedHost fuel text = ⟨List.replicate fuel (.jni "GetEnv"), .exhausted⟩ ∧
    stderrLines (jsqsh_fatal detachedHost fuel text).trace = [] ∧
    sinkCalls (jsqsh_fatal detachedHost fuel text).trace = [] ∧
    jsqsh_getenv detachedHost fuel =
      (emit (.jni "GetEnv") >>= fun _ =>
        jsqsh_assert_jni_fail detachedHost fuel false "retval == JNI_OK && env != NULL"
          "jsqsh_util.c" 164) := by
  have e := jsqsh_log_detached fuel
  refine ⟨e _ _, e _ _, e _ _, e _ _, e _ _, ?_, ?_, ?_⟩
  · rw [jsqsh_fatal, e]; exact stderrLines_replicate_getenv fuel
  · rw [jsqsh_fatal, e]; exact sinkCalls_replicate_getenv fuel
  · simp [jsqsh_getenv, jsqsh_assert_jni_fail, getenv_with, ASSERT_JNI_with, assert_jni_fail_with,
      assert_fail_with, detachedHost, nominalHost, jsqsh_fatal, emit]
    have e' := e LOG_FATAL
    simp only [detachedHost, nominalHost] at e'
    simp [e']

/-- C13 (defect): on an initialised host whose `GetEnv` fails,
`jsqsh_assert_fail` writes nothing to standard error and never reaches
`abort()`: for every nesting budget its run is still descending through
`jsqsh_fatal`, `_jsqsh_log`, `jsqsh_getenv` and the assertion helper, having
made only `GetEnv` calls. -/
theorem jsqsh_assert_fail_recurses_when_getenv_fails (fuel : Nat) (expr file : String)
    (line : Nat) :
    (jsqsh_assert_fail detachedHost fuel expr file line : Run Unit) =
      ⟨List.replicate fuel (.jni "GetEnv"), .exhausted⟩ ∧
    stderrLines (jsqsh_assert_fail detachedHost fuel expr file line : Run Unit).trace = [] ∧
    (jsqsh_assert_fail detachedHost fuel expr file line : Run Unit).out ≠ .abort := by
  have e : (jsqsh_assert_fail detachedHost fuel expr file line : Run Unit) =
      ⟨List.replicate fuel (.jni "GetEnv"), .exhausted⟩ := by
    simp [jsqsh_assert_fail, assert_fail_with, jsqsh_fatal,
      jsqsh_log_without_context detachedHost rfl rfl fuel]
  rw [e]
  exact ⟨rfl, stderrLines_replicate_getenv fuel, by simp⟩

/-- C14 (defect): called with a null `env`, as `jsqsh_getenv` calls it after a
failed `GetEnv`, `jsqsh_assert_jni_fail` never reaches `abort()`: for every
nesting budget its run is still descending through the logger, and nothing is
written to standard error.  Called with a non-null `env` and a pending
exception while the logger's `GetEnv` fails, it queries `ExceptionOccurred`,
descends in the same way and never asks the host to describe the exception. -/
theorem jsqsh_assert_jni_fail_recurses_when_getenv_fails (fuel : Nat) (expr file : String)
    (line : Nat) :
    (jsqsh_assert_jni_fail detachedHost fuel false expr file line : Run Unit) =
      ⟨List.replicate fuel (.jni "GetEnv"), .exhausted⟩ ∧
    stderrLines
      (jsqsh_assert_jni_fail detachedHost fuel false expr file line : Run Unit).trace = [] ∧
    (jsqsh_assert_jni_fail detachedHost fuel false expr file line : Run Unit).out ≠ .abort ∧
    (jsqsh_assert_jni_fail detachedPendingHost fuel true expr file line : Run Unit) =
      ⟨.jni "ExceptionOccurred" :: List.replicate fuel (.jni "GetEnv"), .exhausted⟩ ∧
    describeCount
      (jsqsh_assert_jni_fail detachedPendingHost fuel true expr file line : Run Unit).trace
      = 0 := by
  have e1 : (jsqsh_assert_jni_fail detachedHost fuel false expr file line : Run Unit) =
      ⟨List.replicate fuel (.jni "GetEnv"), .exhausted⟩ := by
    simp [jsqsh_assert_jni_fail, assert_jni_fail_with, assert_fail_with, jsqsh_fatal,
      jsqsh_log_without_context detachedHost rfl rfl fuel]
  have e2 : (jsqsh_assert_jni_fail detachedPendingHost fuel true expr file line : Run Unit) =
      ⟨.jni "ExceptionOccurred" :: List.replicate fuel (.jni "GetEnv"), .exhausted⟩ := by
    have hp : detachedPendingHost.exceptionOccurred = true := rfl
    simp [jsqsh_assert_jni_fail, assert_jni_fail_with, jsqsh_fatal, emit, hp,
      jsqsh_log_without_context detachedPendingHost rfl rfl fuel]
  rw [e1, e2]
  refine ⟨rfl, stderrLines_replicate_getenv fuel, by simp, rfl, ?_⟩
  simp [describeCount, describeCount_replicate_getenv]

/-- A message that does not fit the buffer of 2048 bytes, or a failed
allocation of that buffer, takes `_jsqsh_log` out of defined behaviour right
after the runtime context has been obtained. -/
theorem jsqsh_log_overflows_buffer (h : Host) (fuel : Nat) (severity : Int) (text : String)
    (hj : h.jvm = true) (hc : h.contextObtained = true)
    (hbig : h.logMalloc = false ∨ LOG_BUFFER_SIZE ≤ text.utf8ByteSize) :
    _jsqsh_log h (fuel + 1) severity text = ⟨[.jni "GetEnv"], .undefined⟩ := by
  have hg := getenv_with_of_context h (_jsqsh_log h fuel LOG_FATAL) hc
  rcases hbig with hb | hb
  · simp [_jsqsh_log, hj, hg, hb, undefined]
  · simp [_jsqsh_log, hj, hg, hb, undefined]

/-! ## The error translator (`jsqsh_throw`) -/

/-- A text that fits the 512-byte buffer of `jsqsh_throw` is copied whole. -/
theorem throwMessage_of_fits (h : Host) (errnum : Int)
    (hlen : (h.strerror errnum).length ≤ 511) : throwMessage h errnum = h.strerror errnum := by
  unfold throwMessage
  rw [String.take_eq, List.take_of_length_le (show (h.strerror errnum).1.length ≤ 511 from hlen)]

/-- C15: for every error code, when the allocation and all host lookups
succeed, `jsqsh_throw` returns having thrown exactly one exception, of the
class supplied or of `org/sqsh/jni/NativeShellException` when none is
supplied, whose message is the platform's text for the error code (a text of
at most 511 characters, which fits the 512-byte buffer). -/
theorem jsqsh_throw_category (h : Host) (fuel : Nat) (errnum : Int) (clazz : Option String)
    (hh : h.throwSucceeds errnum clazz = true) (hlen : (h.strerror errnum).length ≤ 511) :
    (jsqsh_throw h fuel errnum clazz).out = .ret () ∧
    raised (jsqsh_throw h fuel errnum clazz).trace =
      [(match clazz with
        | some c => c
        | none => "org/sqsh/jni/NativeShellException", h.strerror errnum)] := by
  rw [jsqsh_throw_of_succeeds h fuel errnum clazz hh, throwMessage_of_fits h errnum hlen]
  cases clazz <;> simp [raised, defaultExceptionClass]

/-- C15 at the nominal host, error code 9, no class supplied. -/
theorem jsqsh_throw_category_witness :
    nominalHost.throwSucceeds 9 none = true ∧ (nominalHost.strerror 9).length ≤ 511 ∧
    (jsqsh_throw nominalHost 1 9 none).out = .ret () ∧
    raised (jsqsh_throw nominalHost 1 9 none).trace =
      [("org/sqsh/jni/NativeShellException", nominalHost.strerror 9)] :=
  ⟨rfl, by decide, jsqsh_throw_category nominalHost 1 9 none rfl (by decide)⟩

/-- C16 fails as stated: on a host whose class lookup fails, `jsqsh_throw` ends
in `abort()` after a FATAL line has been written to standard error. -/
theorem jsqsh_throw_aborts_when_class_missing :
    (jsqsh_throw noClassHost 1 9 none).out = .abort ∧
    stderrLines (jsqsh_throw noClassHost 1 9 none).trace =
      ["FATAL 2007.05.01 12:00:00:000 jsqsh_util.c: 100: Assertion failed: exception_class != NULL\n\n"] := by
  constructor <;> rfl

/-- C16, amended: for every error code and every category, whenever the buffer
allocation, the message-string creation, the class lookup, the constructor
lookup and the object creation succeed, `jsqsh_throw` returns to its caller,
having logged nothing (nothing on standard error, nothing to the sink). -/
theorem jsqsh_throw_returns_when_lookups_succeed (h : Host) (fuel : Nat) (errnum : Int)
    (clazz : Option String) (hh : h.throwSucceeds errnum clazz = true) :
    (jsqsh_throw h fuel errnum clazz).out = .ret () ∧
    stderrLines (jsqsh_throw h fuel errnum clazz).trace = [] ∧
    sinkCalls (jsqsh_throw h fuel errnum clazz).trace = [] := by
  rw [jsqsh_throw_of_succeeds h fuel errnum clazz hh]
  simp [stderrLines, sinkCalls]

/-- C16, amended, at the nominal host. -/
theorem jsqsh_throw_returns_when_lookups_succeed_witness :
    nominalHost.throwSucceeds 9 (some ioException) = true ∧
    (jsqsh_throw nominalHost 1 9 (some ioException)).out = .ret () ∧
    stderrLines (jsqsh_throw nominalHost 1 9 (some ioException)).trace = [] ∧
    sinkCalls (jsqsh_throw nominalHost 1 9 (some ioException)).trace = [] :=
  ⟨rfl, jsqsh_throw_returns_when_lookups_succeed nominalHost 1 9 (some ioException) rfl⟩

/-! ## Terminal width (`jsqsh_width`) -/

/-- C17 fails as stated: when the query succeeds and reports 0 columns,
`jsqsh_width` returns 0, which is not a positive number. -/
theorem jsqsh_width_zero_columns :
    Unix.jsqsh_width true (some 0) = ⟨[], .ret 0⟩ ∧
    ¬ ∃ r : Int, Unix.jsqsh_width true (some 0) = ⟨[], .ret r⟩ ∧ 0 < r := by
  refine ⟨rfl, ?_⟩
  rintro ⟨r, hr, hpos⟩
  have : r = 0 := by
    have h0 : Unix.jsqsh_width true (some 0) = ⟨[], .ret 0⟩ := rfl
    rw [h0] at hr
    injection hr with _ h2
    injection h2 with h3
    exact h3.symm
  omega

/-- C17, amended: `jsqsh_width` has no effect (it throws nothing); it returns
-1 when the query fails or, on POSIX, when the query primitive is not compiled
in; when the query succeeds it returns the column count the platform
reported, unchanged.  Both back ends. -/
theorem jsqsh_width_returns_reported_count (haveTIOCGWINSZ : Bool) (ioctl : Option Nat)
    (ws_col : Nat) (x : Int) :
    Unix.jsqsh_width haveTIOCGWINSZ none = ⟨[], .ret (-1)⟩ ∧
    Unix.jsqsh_width false ioctl = ⟨[], .ret (-1)⟩ ∧
    Unix.jsqsh_width true (some ws_col) = ⟨[], .ret ws_col⟩ ∧
    Win32.jsqsh_width none = ⟨[], .ret (-1)⟩ ∧
    Win32.jsqsh_width (some x) = ⟨[], .ret x⟩ := by
  refine ⟨?_, rfl, rfl, rfl, rfl⟩
  cases haveTIOCGWINSZ <;> rfl

/-! ## The JNI boundary -/

/-- Sequencing of runs is associative. -/
theorem run_bind_assoc {α β γ : Type} (r : Run α) (f : α → Run β) (g : β → Run γ) :
    ((r >>= f) >>= g) = (r >>= fun a => f a >>= g) := by
  obtain ⟨t, o⟩ := r
  cases o with
  | ret a =>
    show Run.bind (Run.bind ⟨t, .ret a⟩ f) g = Run.bind ⟨t, .ret a⟩ (fun a => Run.bind (f a) g)
    cases hfa : (f a).out <;> simp [Run.bind, hfa]
  | abort => rfl
  | exhausted => rfl
  | undefined => rfl

/-- Nothing runs after `jsqsh_assert_fail`. -/
theorem assert_fail_with_bind {α β : Type} (fatal : String → Run Unit) (expr file : String)
    (line : Nat) (g : α → Run β) :
    ((assert_fail_with fatal expr file line : Run α) >>= g) =
      assert_fail_with fatal expr file line := by
  unfold assert_fail_with
  rw [run_bind_assoc]
  rfl

/-- Nothing runs after `jsqsh_assert_jni_fail`. -/
theorem assert_jni_fail_with_bind {α β : Type} (h : Host) (fatal : String → Run Unit)
    (envNonNull : Bool) (expr file : String) (line : Nat) (g : α → Run β) :
    ((assert_jni_fail_with h fatal envNonNull expr file line : Run α) >>= g) =
      assert_jni_fail_with h fatal envNonNull expr file line := by
  unfold assert_jni_fail_with
  cases envNonNull
  · simp [assert_fail_with_bind]
  · cases h.exceptionOccurred
    · simp only [Bool.not_true, Bool.false_eq_true, if_false, Bool.not_false, if_true]
      rw [run_bind_assoc]
      simp only [assert_fail_with_bind]
    · simp only [Bool.not_true, Bool.false_eq_true, if_false]
      rw [run_bind_assoc]
      congr 1
      funext _
      rw [run_bind_assoc]
      congr 1

/-- The function `jsqsh_assert_fail` does not return. -/
theorem assert_fail_with_no_return {α : Type} (fatal : String → Run Unit) (expr file : String)
    (line : Nat) (a : α) : (assert_fail_with fatal expr file line : Run α).out ≠ .ret a := by
  unfold assert_fail_with
  generalize fatal (assertText expr file line) = r
  obtain ⟨t, o⟩ := r
  cases o <;> simp [abort]

/-- The function `jsqsh_assert_jni_fail` does not return. -/
theorem assert_jni_fail_with_no_return {α : Type} (h : Host) (fatal : String → Run Unit)
    (envNonNull : Bool) (expr file : String) (line : Nat) (a : α) :
    (assert_jni_fail_with h fatal envNonNull expr file line : Run α).out ≠ .ret a := by
  unfold assert_jni_fail_with
  cases envNonNull
  · simpa using assert_fail_with_no_return fatal expr file line a
  · cases h.exceptionOccurred
    · have := assert_fail_with_no_return fatal expr file line a
      simpa [emit] using this
    · generalize fatal (assertJniText expr file line) = r
      obtain ⟨t, o⟩ := r
      cases o <;> simp [emit, abort]

/-- C18: for a command array of length 0 the boundary functions `popen` and
`exec` consist of the call `GetArrayLength` followed by the host-call
invariant checker for the failed check `nargs > 0`; the run does not depend on
the back end, which is never called, and the functions never return a value
(no handle, no process). -/
theorem boundary_rejects_empty_command (h : Host) (fuel : Nat) (ah : ArgHost)
    (jsqsh_popen jsqsh_exec : List (List Char) → Run SpawnEnd) :
    Java_org_sqsh_jni_ShellManager_popen h fuel ah [] jsqsh_popen =
      (emit (.jni "GetArrayLength") >>= fun _ =>
        jsqsh_assert_jni_fail h fuel true "nargs > 0" "jsqsh_jni.c" 62) ∧
    (∀ e, (Java_org_sqsh_jni_ShellManager_popen h fuel ah [] jsqsh_popen).out ≠ .ret e) ∧
    Java_org_sqsh_jni_ShellManager_exec h fuel ah [] jsqsh_exec =
      (emit (.jni "GetArrayLength") >>= fun _ =>
        jsqsh_assert_jni_fail h fuel true "nargs > 0" "jsqsh_jni.c" 141) ∧
    (∀ e, (Java_org_sqsh_jni_ShellManager_exec h fuel ah [] jsqsh_exec).out ≠ .ret e) := by
  have e1 : Java_org_sqsh_jni_ShellManager_popen h fuel ah [] jsqsh_popen =
      (emit (.jni "GetArrayLength") >>= fun _ =>
        jsqsh_assert_jni_fail h fuel true "nargs > 0" "jsqsh_jni.c" 62) := by
    simp only [Java_org_sqsh_jni_ShellManager_popen, ASSERT_JNI, ASSERT_JNI_with,
      jsqsh_assert_jni_fail, List.length_nil, gt_iff_lt, Nat.lt_irrefl, decide_False,
      Bool.false_eq_true, if_false, assert_jni_fail_with_bind]
  have e2 : Java_org_sqsh_jni_ShellManager_exec h fuel ah [] jsqsh_exec =
      (emit (.jni "GetArrayLength") >>= fun _ =>
        jsqsh_assert_jni_fail h fuel true "nargs > 0" "jsqsh_jni.c" 141) := by
    simp only [Java_org_sqsh_jni_ShellManager_exec, ASSERT_JNI, ASSERT_JNI_with,
      jsqsh_assert_jni_fail, List.length_nil, gt_iff_lt, Nat.lt_irrefl, decide_False,
      Bool.false_eq_true, if_false, assert_jni_fail_with_bind]
  refine ⟨e1, ?_, e2, ?_⟩
  · intro e
    rw [e1]
    simpa [emit, jsqsh_assert_jni_fail] using
      assert_jni_fail_with_no_return h (jsqsh_fatal h fuel) true "nargs > 0" "jsqsh_jni.c" 62 e
  · intro e
    rw [e2]
    simpa [emit, jsqsh_assert_jni_fail] using
      assert_jni_fail_with_no_return h (jsqsh_fatal h fuel) true "nargs > 0" "jsqsh_jni.c" 141 e

/-- C20 (defect): `writeByte` passes the address of its 32-bit parameter, so
the byte delivered is the one the platform stores first.  For the value 65 a
platform that stores the most significant byte first delivers the byte 0; a
platform that stores the least significant byte first delivers 65. -/
theorem writeByte_sends_first_stored_byte (h : Host) (fuel : Nat) (stack : Int → Nat) :
    Java_org_sqsh_jni_ShellManager_writeByte true stack
      (fun mem len => Unix.jsqsh_write h fuel mem oneByteWrite len 1) 65 =
      ⟨[], .ret ⟨1, 1, 1, [0]⟩⟩ ∧
    Java_org_sqsh_jni_ShellManager_writeByte false stack
      (fun mem len => Unix.jsqsh_write h fuel mem oneByteWrite len 1) 65 =
      ⟨[], .ret ⟨1, 1, 1, [65]⟩⟩ ∧
    jintBytes true 65 = [0, 0, 0, 65] ∧ jintBytes false 65 = [65, 0, 0, 0] := by
  refine ⟨rfl, rfl, by decide, by decide⟩

/-- On a platform that stores the least significant byte first, `writeByte`
delivers the byte it is given. -/
theorem writeByte_little_endian (h : Host) (fuel : Nat) (stack : Int → Nat) (b : Int)
    (h0 : 0 ≤ b) (h1 : b ≤ 255) :
    Java_org_sqsh_jni_ShellManager_writeByte false stack
      (fun mem len => Unix.jsqsh_write h fuel mem oneByteWrite len 1) b =
      ⟨[], .ret ⟨1, 1, 1, [b.toNat]⟩⟩ := by
  have hb : intBits b % 256 = b.toNat := by
    unfold intBits
    rw [Int.emod_eq_of_lt h0 (by omega)]
    omega
  have hm : bytesAt (jintMem false b stack) 0 1 = [b.toNat] := by
    have hr : List.range 1 = [0] := rfl
    simp [bytesAt, hr, jintMem, jintBytes, hb]
  have hw1 : wrap32 1 = 1 := by decide
  have hw0 : wrap32 (0 + 1) = 1 := by decide
  simp only [Java_org_sqsh_jni_ShellManager_writeByte, Unix.jsqsh_write, Unix.write_loop,
    oneByteWrite, hw1, hw0]
  simp [hm]

/-! ## The standard-error line -/

/-- The tag `_jsqsh_log` chooses for each of the five severities is the name of
the severity filled up with blanks to five characters. -/
theorem logSev_eq_padded_name (severity : Int) (hsev : severity ∈ severities) :
    logSev severity = padTo5 (severityName severity) := by
  simp only [severities, List.mem_cons, List.mem_singleton, List.not_mem_nil, or_false] at hsev
  rcases hsev with hs | hs | hs | hs | hs <;> subst hs <;> decide

/-- C21 fails as stated: the line written for an INFO message whose sink lookup
failed has two blanks between the name `INFO` and the timestamp, so it is not
the name, one space, the timestamp, one space, the message and a newline. -/
theorem jsqsh_log_info_line_has_two_blanks :
    stderrLines (_jsqsh_log noClassHost 1 LOG_INFO "disk full").trace =
      ["INFO  2007.05.01 12:00:00:000 disk full\n"] ∧
    stderrLines (_jsqsh_log noClassHost 1 LOG_INFO "disk full").trace ≠
      [severityName LOG_INFO ++ " " ++ (noClassHost.now ++ ":000") ++ " " ++ "disk full"
        ++ "\n"] := by
  constructor
  · rfl
  · decide

/-- C21, amended: for every severity in DEBUG, INFO, WARN, ERROR, FATAL, the
line `_jsqsh_log` writes to standard error in its last step (after
initialisation, when a resolution step failed or the severity is FATAL) is the
severity's name filled up with blanks to five characters, one space, the
timestamp, one space, the formatted message and a newline; the timestamp is
the text `strftime` produces for year.month.day hour:minute:second followed by
the literal `:000`.  The names DEBUG, ERROR and FATAL have five characters and
are written as they are; INFO and WARN are followed by one more blank.  The
message buffer of 2048 bytes is allocated and the formatted message, with its
terminating NUL, fits it. -/
theorem jsqsh_log_stderr_line_format (h : Host) (fuel : Nat) (severity : Int) (text : String)
    (hj : h.jvm = true) (hc : h.contextObtained = true) (hm : h.logMalloc = true)
    (hlen : text.utf8ByteSize < LOG_BUFFER_SIZE) (hsev : severity ∈ severities)
    (hw : h.sinkResolves severity text = false ∨ severity = LOG_FATAL) :
    stderrLines (_jsqsh_log h (fuel + 1) severity text).trace =
      [padTo5 (severityName severity) ++ " " ++ (h.now ++ ":000") ++ " " ++ text ++ "\n"] ∧
    padTo5 (severityName LOG_DEBUG) = "DEBUG" ∧ padTo5 (severityName LOG_INFO) = "INFO " ∧
    padTo5 (severityName LOG_WARN) = "WARN " ∧ padTo5 (severityName LOG_ERROR) = "ERROR" ∧
    padTo5 (severityName LOG_FATAL) = "FATAL" := by
  refine ⟨?_, by decide, by decide, by decide, by decide, by decide⟩
  rw [jsqsh_log_initialised h fuel severity text hj hc hm hlen,
    ← logSev_eq_padded_name severity hsev]
  by_cases hs : severity = LOG_FATAL
  · subst hs
    cases h1 : h.findClass "org/sqsh/jni/ShellManager" <;>
    cases h2 : h.getStaticMethodID (logMethod LOG_FATAL) <;>
    cases h3 : h.newStringUTF text <;>
    simp [h1, h2, h3, stderrLines, stderrLine]
  · have hr : h.sinkResolves severity text = false := by
      rcases hw with hw | hw
      · exact hw
      · exact absurd hw hs
    cases h1 : h.findClass "org/sqsh/jni/ShellManager" <;>
    cases h2 : h.getStaticMethodID (logMethod severity) <;>
    cases h3 : h.newStringUTF text <;>
    simp [Host.sinkResolves, h1, h2, h3] at hr <;>
    simp [h1, h2, h3, hs, stderrLines, stderrLine]

/-- C21, amended, at a warning whose sink lookup failed. -/
theorem jsqsh_log_stderr_line_format_witness :
    noClassHost.jvm = true ∧ noClassHost.contextObtained = true ∧
    noClassHost.logMalloc = true ∧ "disk full".utf8ByteSize < LOG_BUFFER_SIZE ∧
    LOG_WARN ∈ severities ∧
    (noClassHost.sinkResolves LOG_WARN "disk full" = false ∨ LOG_WARN = LOG_FATAL) ∧
    stderrLines (_jsqsh_log noClassHost 1 LOG_WARN "disk full").trace =
      [padTo5 (severityName LOG_WARN) ++ " " ++ (noClassHost.now ++ ":000") ++ " "
        ++ "disk full" ++ "\n"] ∧
    padTo5 (severityName LOG_WARN) ++ " " ++ (noClassHost.now ++ ":000") ++ " "
        ++ "disk full" ++ "\n" = "WARN  2007.05.01 12:00:00:000 disk full\n" :=
  ⟨rfl, rfl, rfl, by decide, by decide, Or.inl rfl,
    (jsqsh_log_stderr_line_format noClassHost 0 LOG_WARN "disk full" rfl rfl rfl (by decide)
      (by decide) (Or.inl rfl)).1, by decide⟩

/-! ## The length bound of the command line -/

/-- C22: for every argument vector the command line produced is exactly the
first `min(1023, L)` characters of the single-space join of the arguments,
where `L` is the length of the join; hence it has `min(1023, L)` characters,
never more than 1023, so that the terminating NUL fits in the buffer of 1024
characters, and it is the whole join whenever `L ≤ 1023`. -/
theorem jsqsh_commandline_cut_at_buffer (argv : List (List Char)) :
    Win32.jsqsh_commandline argv =
      (List.intercalate [' '] argv).take (min 1023 (List.intercalate [' '] argv).length) ∧
    (Win32.jsqsh_commandline argv).length = min 1023 (List.intercalate [' '] argv).length ∧
    (Win32.jsqsh_commandline argv).length ≤ 1023 ∧
    (Win32.jsqsh_commandline argv).length + 1 ≤ 1024 ∧
    ((List.intercalate [' '] argv).length ≤ 1023 →
      Win32.jsqsh_commandline argv = List.intercalate [' '] argv) := by
  have e := jsqsh_commandline_eq_take argv
  have hl : (Win32.jsqsh_commandline argv).length
      = min 1023 (List.intercalate [' '] argv).length := by
    rw [e, List.length_take]
  refine ⟨?_, hl, ?_, ?_, ?_⟩
  · rw [e]
    by_cases hle : (List.intercalate [' '] argv).length ≤ 1023
    · rw [Nat.min_eq_right hle, List.take_of_length_le hle, List.take_of_length_le (le_refl _)]
    · rw [Nat.min_eq_left (by omega)]
  · rw [hl]; exact Nat.min_le_left _ _
  · rw [hl]; exact Nat.succ_le_succ (Nat.min_le_left _ _)
  · intro hle
    rw [e, List.take_of_length_le hle]

/-- C22 at a vector with empty arguments and at a vector longer than the buffer. -/
theorem jsqsh_commandline_cut_at_buffer_witness :
    Win32.jsqsh_commandline emptyArgsArgv = [' ', 'a', ' ', ' ', ' ', 'b', ' '] ∧
    (List.intercalate [' '] emptyArgsArgv).length ≤ 1023 ∧
    Win32.jsqsh_commandline emptyArgsArgv = List.intercalate [' '] emptyArgsArgv ∧
    (Win32.jsqsh_commandline longArgv).length
      = min 1023 (List.intercalate [' '] longArgv).length ∧
    (Win32.jsqsh_commandline longArgv).length ≤ 1023 :=
  ⟨by decide, by decide,
    (jsqsh_commandline_cut_at_buffer emptyArgsArgv).2.2.2.2 (by decide),
    (jsqsh_commandline_cut_at_buffer longArgv).2.1,
    (jsqsh_commandline_cut_at_buffer longArgv).2.2.1⟩

end Jsqsh
